import Mathlib

/-!
Verification of the hotel-booking API gateway
(`services/gateway_service/app.py` and `schemas.py`).

The gateway is embedded shallowly:
* JSON values are modelled by `JVal` (numbers as `ℚ`);
* Python dict operations (`d[k]`, `d[k] = v`, `del d[k]`) are modelled by
  `jget`, `jset`, `jdel` over association lists — Python dicts have unique
  keys, so first-match lookup / whole-key deletion coincide with dict
  behaviour on every state the program can reach;
* Python exceptions are modelled by `PyExc` and fallible code returns
  `Except PyExc _`;
* each backend HTTP call is driven by an `Upstream` oracle describing the
  backend's behaviour for that call, and every client function and route
  additionally returns the list of backend `Call`s it issued, in order.
-/

inductive JVal where
  | null
  | bool (b : Bool)
  | num (q : ℚ)
  | str (s : String)
  | arr (xs : List JVal)
  | obj (fields : List (String × JVal))

/-- Python exceptions that the gateway code can raise or catch.
`schemaValidation` models the app's own `SchemaValidationError`;
`connectionError` models `requests.exceptions.ConnectionError`;
`httpError` models `requests.exceptions.HTTPError` (a `RequestException`);
`keyError`, `typeError`, `valueError` model the builtin exceptions, which
no gateway handler catches. -/
inductive PyExc where
  | schemaValidation (msg : String) (errors : Option JVal)
  | connectionError
  | httpError (code : ℕ)
  | keyError (key : String)
  | typeError
  | valueError

/-- First-match lookup in an association list (Python `d[k]` read). -/
def lookupKey : List (String × JVal) → String → Option JVal
  | [], _ => none
  | (k', v) :: rest, k => if k' = k then some v else lookupKey rest k

/-- Python `d[k] = v`: replace the binding in place, or append a new one. -/
def setKey : List (String × JVal) → String → JVal → List (String × JVal)
  | [], k, v => [(k, v)]
  | (k', v') :: rest, k, v =>
      if k' = k then (k', v) :: rest else (k', v') :: setKey rest k v

/-- Python `del d[k]`: remove the binding for `k` (unique in a dict). -/
def delKey (l : List (String × JVal)) (k : String) : List (String × JVal) :=
  l.filter (fun kv => kv.1 != k)

def hasKey (l : List (String × JVal)) (k : String) : Bool :=
  (lookupKey l k).isSome

/-- Python `v[k]` on a JSON value: `KeyError` when the key is absent,
`TypeError` when `v` is not a dict. -/
def jget (v : JVal) (k : String) : Except PyExc JVal :=
  match v with
  | .obj l =>
      match lookupKey l k with
      | some x => .ok x
      | none => .error (.keyError k)
  | _ => .error .typeError

/-- Python `v[k] = x` on a JSON value. -/
def jset (v : JVal) (k : String) (x : JVal) : Except PyExc JVal :=
  match v with
  | .obj l => .ok (.obj (setKey l k x))
  | _ => .error .typeError

/-- Python `del v[k]` on a JSON value. -/
def jdel (v : JVal) (k : String) : Except PyExc JVal :=
  match v with
  | .obj l => if hasKey l k then .ok (.obj (delKey l k)) else .error (.keyError k)
  | _ => .error .typeError

/-- Python truthiness of a JSON value. -/
def jtruthy : JVal → Bool
  | .null => false
  | .bool b => b
  | .num q => q != 0
  | .str s => s != ""
  | .arr xs => !xs.isEmpty
  | .obj l => !l.isEmpty

/-- Truthiness of `make_request`'s result (`None` for an empty body is falsy). -/
def truthyOpt : Option JVal → Bool
  | none => false
  | some v => jtruthy v

/-- Behaviour of one backend service for one HTTP call: either the network
layer fails (`requests.exceptions.ConnectionError`), or the backend answers
with a status code and an optional JSON body (`none` = empty content). -/
inductive Upstream where
  | unreachable
  | status (code : ℕ) (body : Option JVal)

/-- A schema's `load`: returns the loaded value or the marshmallow
`ValidationError` messages. -/
abbrev SchemaFn := JVal → Except JVal JVal

/-- `ServiceClient.make_request`: perform the call, `raise_for_status`
(HTTP errors for 4xx/5xx, with 404 converted to
`SchemaValidationError("Resource not found")`), then — for a 2xx response —
validate the body against the schema when one is given and the body is
non-empty, converting a `ValidationError` into
`SchemaValidationError("Invalid response format", messages)`; otherwise
return the parsed body (`none` when the body is empty). -/
def make_request (u : Upstream) (schema : Option SchemaFn) :
    Except PyExc (Option JVal) :=
  match u with
  | .unreachable => .error .connectionError
  | .status code body =>
      if 400 ≤ code ∧ code < 600 then
        if code = 404 then .error (.schemaValidation "Resource not found" none)
        else .error (.httpError code)
      else
        match schema, body with
        | some sch, some b =>
            match sch b with
            | .ok v => .ok (some v)
            | .error msgs =>
                .error (.schemaValidation "Invalid response format" (some msgs))
        | _, _ => .ok body

/-- Serialization of the `errors` attribute through
`ValidationErrorSchema`'s `List(Nested(ErrorDescriptionSchema))` field.
`dump` never validates: `None` dumps as JSON null, and a marshmallow
messages dict is iterated as its keys, each key string dumping through the
nested schema to an empty object (a string has neither a `field` nor an
`error` attribute, and `dump` does not enforce `required`) — the
field-level details are lost. The last arm is unreachable: the program
only constructs `SchemaValidationError` with `None` or a messages dict. -/
def dumpErrors : Option JVal → JVal
  | none => .null
  | some (.obj l) => .arr (l.map (fun _ => .obj []))
  | some _ => .arr []

/-- Body of a 400 validation response: `ValidationErrorSchema().dump` of
the message and errors. -/
def validationBody (msg : String) (errs : Option JVal) : JVal :=
  .obj [("message", .str msg), ("errors", dumpErrors errs)]

/-- Body of a plain error response (`ErrorSchema` dump). -/
def errorBody (msg : String) : JVal :=
  .obj [("message", .str msg)]

/-- The `handle_service_error` decorator: converts the app's
`SchemaValidationError` to a 400 validation response,
`requests.exceptions.ConnectionError` to a 503
"Service temporarily unavailable" response, and any other
`requests.exceptions.RequestException` (HTTP errors included) to a 500
"Internal service error" response. Builtin exceptions (`KeyError`,
`TypeError`, `ValueError`) are not caught and propagate. -/
def handle_service_error (r : Except PyExc (ℕ × JVal)) :
    Except PyExc (ℕ × JVal) :=
  match r with
  | .ok resp => .ok resp
  | .error (.schemaValidation m errs) => .ok (400, validationBody m errs)
  | .error .connectionError =>
      .ok (503, errorBody "Service temporarily unavailable")
  | .error (.httpError _) => .ok (500, errorBody "Internal service error")
  | .error e => .error e

/-- `ServiceClient._check_user_header`: the request headers are modelled by
the optional value of the `X-User-Name` header; absence raises
`SchemaValidationError("X-User-Name header is required")`. -/
def check_user_header (hdr : Option String) : Except PyExc String :=
  match hdr with
  | none => .error (.schemaValidation "X-User-Name header is required" none)
  | some u => .ok u

/-! ### Calendar dates (CPython `datetime.date`) -/

def isLeapYear (y : ℕ) : Bool :=
  y % 4 == 0 && (y % 100 != 0 || y % 400 == 0)

def daysInMonth (y m : ℕ) : ℕ :=
  if m = 2 then (if isLeapYear y then 29 else 28)
  else if m = 4 ∨ m = 6 ∨ m = 9 ∨ m = 11 then 30
  else 31

def daysBeforeMonth (y m : ℕ) : ℕ :=
  (List.range (m - 1)).foldl (fun acc i => acc + daysInMonth y (i + 1)) 0

/-- CPython's `_ymd2ord`: the proleptic-Gregorian ordinal of a date,
with 0001-01-01 as ordinal 1. -/
def ymd2ord (y m d : ℕ) : ℕ :=
  (y - 1) * 365 + (y - 1) / 4 - (y - 1) / 100 + (y - 1) / 400 +
    daysBeforeMonth y m + d

structure DateT where
  year : ℕ
  month : ℕ
  day : ℕ
deriving DecidableEq, Repr

def dateOrd (dt : DateT) : ℕ := ymd2ord dt.year dt.month dt.day

/-- `(end_date - start_date).days` for two dates at midnight. -/
def dateDiffDays (s e : DateT) : ℤ := (dateOrd e : ℤ) - (dateOrd s : ℤ)

def digit? (c : Char) : Option ℕ :=
  if c.isDigit then some (c.toNat - 48) else none

def digitsVal (cs : List Char) : Option ℕ :=
  cs.foldl
    (fun acc c =>
      match acc, digit? c with
      | some n, some d => some (n * 10 + d)
      | _, _ => none)
    (some 0)

/-- Parse a `YYYY-MM-DD` date string, validating the calendar
(`datetime.fromisoformat` / `strptime` with format `%Y-%m-%d`). -/
def dateParse (s : String) : Option DateT :=
  match s.toList with
  | [y1, y2, y3, y4, h1, m1, m2, h2, d1, d2] =>
      if h1 = '-' ∧ h2 = '-' then
        match digitsVal [y1, y2, y3, y4], digitsVal [m1, m2], digitsVal [d1, d2] with
        | some y, some m, some d =>
            if 1 ≤ y ∧ 1 ≤ m ∧ m ≤ 12 ∧ 1 ≤ d ∧ d ≤ daysInMonth y m then
              some ⟨y, m, d⟩
            else none
        | _, _, _ => none
      else none
  | _ => none

def padNum (width n : ℕ) : String :=
  let s := toString n
  String.mk (List.replicate (width - s.length) '0') ++ s

/-- `date.strftime` with format `%Y-%m-%d`. -/
def dateFormat (dt : DateT) : String :=
  padNum 4 dt.year ++ "-" ++ padNum 2 dt.month ++ "-" ++ padNum 2 dt.day

/-! ### Marshmallow schemas (`schemas.py`)

Each schema is modelled by its `load`: a `SchemaFn` that validates a JSON
body and returns the loaded value (loaded fields in declaration order,
unknown fields dropped — all schemas declare `unknown = EXCLUDE`) or the
`ValidationError` messages. Deviations from marshmallow, none of which any
claim exercises: only the first failing field is reported (marshmallow
collects all); `fields.UUID` acceptance is modelled by the canonical
36-character form and the loaded UUID re-serializes to the same string;
the reservation schemas' `@post_load` date-to-string conversion is folded
into the date field (the real code raises `KeyError` inside `post_load`
when an optional date is absent, a state no claim reaches). -/

def isHexDigit (c : Char) : Bool :=
  c.isDigit || ('a' ≤ c && c ≤ 'f') || ('A' ≤ c && c ≤ 'F')

def isUUIDString (s : String) : Bool :=
  let cs := s.toList
  cs.length == 36 &&
    (List.range 36).all (fun i =>
      let c := cs.getD i ' '
      if i = 8 ∨ i = 13 ∨ i = 18 ∨ i = 23 then c == '-' else isHexDigit c)

def fieldStr : JVal → Except String JVal
  | .str s => .ok (.str s)
  | _ => .error "Not a valid string."

def fieldInt : JVal → Except String JVal
  | .num q => if q.den = 1 then .ok (.num q) else .error "Not a valid integer."
  | _ => .error "Not a valid integer."

def fieldFloat : JVal → Except String JVal
  | .num q => .ok (.num q)
  | _ => .error "Not a valid number."

def fieldUUID : JVal → Except String JVal
  | .str s => if isUUIDString s then .ok (.str s) else .error "Not a valid UUID."
  | _ => .error "Not a valid UUID."

def fieldDate : JVal → Except String JVal
  | .str s =>
      match dateParse s with
      | some dt => .ok (.str (dateFormat dt))
      | none => .error "Not a valid date."
  | _ => .error "Not a valid date."

def fieldIntRange (lo hi : ℕ) (v : JVal) : Except String JVal :=
  match fieldInt v with
  | .ok (.num q) =>
      if (lo : ℚ) ≤ q ∧ q ≤ (hi : ℚ) then .ok (.num q)
      else .error "Invalid range."
  | .ok x => .ok x
  | .error e => .error e

def fieldOneOf (allowed : List String) : JVal → Except String JVal
  | .str s => if s ∈ allowed then .ok (.str s) else .error "Must be one of allowed values."
  | _ => .error "Not a valid string."

structure FieldSpec where
  name : String
  required : Bool
  deser : JVal → Except JVal JVal

def wrapPlain (f : JVal → Except String JVal) : JVal → Except JVal JVal :=
  fun v =>
    match f v with
    | .ok x => .ok x
    | .error m => .error (.arr [.str m])

def loadFields : List FieldSpec → List (String × JVal) →
    Except JVal (List (String × JVal))
  | [], _ => .ok []
  | spec :: rest, l =>
      match lookupKey l spec.name with
      | some v =>
          match spec.deser v with
          | .ok x =>
              match loadFields rest l with
              | .ok out => .ok ((spec.name, x) :: out)
              | .error e => .error e
          | .error m => .error (.obj [(spec.name, m)])
      | none =>
          if spec.required then
            .error (.obj [(spec.name, .arr [.str "Missing data for required field."])])
          else loadFields rest l

def schemaLoadWith (specs : List FieldSpec)
    (post : List (String × JVal) → List (String × JVal)) : SchemaFn :=
  fun j =>
    match j with
    | .obj l =>
        match loadFields specs l with
        | .ok out => .ok (.obj (post out))
        | .error e => .error e
    | _ => .error (.obj [("_schema", .arr [.str "Invalid input type."])])

def loadMany (sch : SchemaFn) : List JVal → Except JVal (List JVal)
  | [] => .ok []
  | x :: xs =>
      match sch x with
      | .ok y =>
          match loadMany sch xs with
          | .ok ys => .ok (y :: ys)
          | .error e => .error e
      | .error e => .error e

def fieldListNested (sch : SchemaFn) : JVal → Except JVal JVal :=
  fun v =>
    match v with
    | .arr xs =>
        match loadMany sch xs with
        | .ok ys => .ok (.arr ys)
        | .error e => .error e
    | _ => .error (.arr [.str "Not a valid list."])

def hotelResponseFields : List FieldSpec :=
  [⟨"hotelUid", true, wrapPlain fieldUUID⟩,
   ⟨"name", true, wrapPlain fieldStr⟩,
   ⟨"country", true, wrapPlain fieldStr⟩,
   ⟨"city", true, wrapPlain fieldStr⟩,
   ⟨"address", true, wrapPlain fieldStr⟩,
   ⟨"stars", true, wrapPlain (fieldIntRange 1 5)⟩,
   ⟨"price", true, wrapPlain fieldFloat⟩]

/-- `HotelResponseSchema.load`. -/
def HotelResponseSchema : SchemaFn := schemaLoadWith hotelResponseFields id

def hotelInfoFields : List FieldSpec :=
  [⟨"hotelUid", true, wrapPlain fieldUUID⟩,
   ⟨"name", true, wrapPlain fieldStr⟩,
   ⟨"country", false, wrapPlain fieldStr⟩,
   ⟨"city", false, wrapPlain fieldStr⟩,
   ⟨"address", false, wrapPlain fieldStr⟩,
   ⟨"fullAddress", false, wrapPlain fieldStr⟩,
   ⟨"stars", true, wrapPlain (fieldIntRange 1 5)⟩]

/-- `HotelInfoSchema.create_full_address` (`@post_load`): when country,
city and address are all present, collapse them into one display string
and drop the three parts. -/
def create_full_address (l : List (String × JVal)) : List (String × JVal) :=
  match lookupKey l "country", lookupKey l "city", lookupKey l "address" with
  | some (.str co), some (.str ci), some (.str ad) =>
      delKey (delKey (delKey
        (setKey l "fullAddress" (.str (co ++ ", " ++ ci ++ ", " ++ ad)))
        "country") "city") "address"
  | _, _, _ => l

/-- `HotelInfoSchema.load`. -/
def HotelInfoSchema : SchemaFn := schemaLoadWith hotelInfoFields create_full_address

def hotelPaginationFields : List FieldSpec :=
  [⟨"page", true, wrapPlain fieldInt⟩,
   ⟨"pageSize", true, wrapPlain fieldInt⟩,
   ⟨"totalElements", true, wrapPlain fieldInt⟩,
   ⟨"items", true, fieldListNested HotelResponseSchema⟩]

/-- `HotelPaginationSchema.load`. -/
def HotelPaginationSchema : SchemaFn := schemaLoadWith hotelPaginationFields id

def reservationResponseFields : List FieldSpec :=
  [⟨"reservationUid", false, wrapPlain fieldUUID⟩,
   ⟨"hotel", true, HotelInfoSchema⟩,
   ⟨"startDate", false, wrapPlain fieldDate⟩,
   ⟨"endDate", false, wrapPlain fieldDate⟩]

/-- `ReservationResponseSchema().load`. -/
def ReservationResponseSchema : SchemaFn :=
  schemaLoadWith reservationResponseFields id

/-- `ReservationResponseSchema(many=True).load`. -/
def ReservationResponseSchemaMany : SchemaFn :=
  fun j =>
    match j with
    | .arr xs =>
        match loadMany ReservationResponseSchema xs with
        | .ok ys => .ok (.arr ys)
        | .error e => .error e
    | _ => .error (.obj [("_schema", .arr [.str "Invalid input type."])])

def loyaltyFields : List FieldSpec :=
  [⟨"status", true, wrapPlain (fieldOneOf ["BRONZE", "SILVER", "GOLD"])⟩,
   ⟨"discount", true, wrapPlain fieldFloat⟩,
   ⟨"reservationCount", true, wrapPlain fieldInt⟩]

/-- `LoyaltySchema.load`. -/
def LoyaltySchema : SchemaFn := schemaLoadWith loyaltyFields id

/-! ### Backend calls, `ServiceClient` workflows and the Flask routes -/

/-- One backend HTTP call issued by the gateway, with the data it carries. -/
inductive Call where
  | getHotels (page size : ℤ)
  | getReservations
  | getReservation (uid : String)
  | getPayment (uid : JVal)
  | deleteReservation (uid : String)
  | deletePayment (uid : JVal)
  | postReservation (body : Option JVal)
  | getLoyalty
  | postPayment (body : JVal)
  | postLoyalty
  | getLoyaltyDirect

/-- The payment-merge block shared by `get_user_reservations` and
`get_reservation_by_id`: `if not payment:` default to an empty payment and
status RESERVED; otherwise `del payment["paymentUid"]`, embed the payment
and take its status. The payment was fetched without a schema, so the dict
operations can raise. -/
def mergePayment (reservation : JVal) (payment : Option JVal) :
    Except PyExc JVal :=
  if !truthyOpt payment then
    match jset reservation "payment" (.obj []) with
    | .error e => .error e
    | .ok r1 => jset r1 "status" (.str "RESERVED")
  else
    match payment with
    | some p =>
        match jdel p "paymentUid" with
        | .error e => .error e
        | .ok p' =>
            match jset reservation "payment" p' with
            | .error e => .error e
            | .ok r1 =>
                match jget p' "status" with
                | .error e => .error e
                | .ok st => jset r1 "status" st
    | none => .error .typeError

/-- The `for reservation in reservations:` loop of `get_user_reservations`:
fetch each reservation's payment (no schema) and merge, accumulating the
results in order. `uPay` gives the payment service's behaviour keyed by the
reservation identifier sent in the URL. -/
def resvLoop (uPay : JVal → Upstream) :
    List JVal → Except PyExc (List JVal) × List Call
  | [] => (.ok [], [])
  | r :: rest =>
      match jget r "reservationUid" with
      | .error e => (.error e, [])
      | .ok uid =>
          match make_request (uPay uid) none with
          | .error e => (.error e, [.getPayment uid])
          | .ok p =>
              match mergePayment r p with
              | .error e => (.error e, [.getPayment uid])
              | .ok r' =>
                  match resvLoop uPay rest with
                  | (.ok rest', tr) => (.ok (r' :: rest'), .getPayment uid :: tr)
                  | (.error e, tr) => (.error e, .getPayment uid :: tr)

/-- `ServiceClient.get_user_reservations`: list the user's reservations
(validated with `ReservationResponseSchema(many=True)`), and when the list
is truthy, merge each with its payment; otherwise fall through and return
`None`. -/
def get_user_reservations (uResv : Upstream) (uPay : JVal → Upstream) :
    Except PyExc (Option JVal) × List Call :=
  match make_request uResv (some ReservationResponseSchemaMany) with
  | .error e => (.error e, [.getReservations])
  | .ok rsO =>
      if !truthyOpt rsO then (.ok none, [.getReservations])
      else
        match rsO with
        | some (.arr rs) =>
            match resvLoop uPay rs with
            | (.ok out, tr) => (.ok (some (.arr out)), .getReservations :: tr)
            | (.error e, tr) => (.error e, .getReservations :: tr)
        | _ => (.error .typeError, [.getReservations])

/-- `ServiceClient.get_reservation_by_id`: fetch one reservation (validated
with `ReservationResponseSchema`), and when truthy, merge it with its
payment; otherwise fall through and return `None`. -/
def get_reservation_by_id (uid : String) (uResv : Upstream)
    (uPay : JVal → Upstream) : Except PyExc (Option JVal) × List Call :=
  match make_request uResv (some ReservationResponseSchema) with
  | .error e => (.error e, [.getReservation uid])
  | .ok rO =>
      if !truthyOpt rO then (.ok none, [.getReservation uid])
      else
        match rO with
        | some r =>
            match jget r "reservationUid" with
            | .error e => (.error e, [.getReservation uid])
            | .ok ruid =>
                match make_request (uPay ruid) none with
                | .error e => (.error e, [.getReservation uid, .getPayment ruid])
                | .ok p =>
                    match mergePayment r p with
                    | .error e =>
                        (.error e, [.getReservation uid, .getPayment ruid])
                    | .ok r' =>
                        (.ok (some r'), [.getReservation uid, .getPayment ruid])
        | none => (.ok none, [.getReservation uid])

/-- `ServiceClient.delete_reservation_by_id`: delete the reservation; when
the deletion reports no content (`is None`), look up the payment: if falsy
return `501`, otherwise delete it by its `paymentUid` and return `204` when
that reports no content. Every other combination returns `504`. -/
def delete_reservation_by_id (uid : String) (uDelResv : Upstream)
    (uGetPay : Upstream) (uDelPay : JVal → Upstream) :
    Except PyExc ℕ × List Call :=
  match make_request uDelResv none with
  | .error e => (.error e, [.deleteReservation uid])
  | .ok (some _) => (.ok 504, [.deleteReservation uid])
  | .ok none =>
      match make_request uGetPay none with
      | .error e => (.error e, [.deleteReservation uid, .getPayment (.str uid)])
      | .ok p =>
          if !truthyOpt p then
            (.ok 501, [.deleteReservation uid, .getPayment (.str uid)])
          else
            match p with
            | some pv =>
                match jget pv "paymentUid" with
                | .error e =>
                    (.error e, [.deleteReservation uid, .getPayment (.str uid)])
                | .ok pid =>
                    match make_request (uDelPay pid) none with
                    | .error e =>
                        (.error e,
                         [.deleteReservation uid, .getPayment (.str uid),
                          .deletePayment pid])
                    | .ok none =>
                        (.ok 204,
                         [.deleteReservation uid, .getPayment (.str uid),
                          .deletePayment pid])
                    | .ok (some _) =>
                        (.ok 504,
                         [.deleteReservation uid, .getPayment (.str uid),
                          .deletePayment pid])
            | none => (.ok 504, [.deleteReservation uid, .getPayment (.str uid)])

/-- `datetime.fromisoformat` applied to a JSON value: `TypeError` unless it
is a string, `ValueError` unless it parses as a date. -/
def pyFromIso (v : JVal) : Except PyExc DateT :=
  match v with
  | .str s =>
      match dateParse s with
      | some dt => .ok dt
      | none => .error .valueError
  | _ => .error .typeError

/-- Use of a JSON value in Python arithmetic: `TypeError` unless it is a
number (Python booleans are integers). -/
def pyNum (v : JVal) : Except PyExc ℚ :=
  match v with
  | .num q => .ok q
  | .bool b => .ok (if b then 1 else 0)
  | _ => .error .typeError

/-- `ServiceClient.create_reservation`: create the reservation (no response
schema), and when its response is truthy: set status RESERVED, compute
`total_price = price * nights` from the response's dates and nightly price,
fetch the loyalty record (no schema) and apply its discount
(`total_price * (1 - discount / 100)`), record the discount, post the
payment with that price and initial status PAID, and if the payment
response is truthy embed it, take its status and post the loyalty update;
finally `del reservation["price"]` and return the reservation.
`uPaymentPost` gives the payment service's behaviour keyed by the posted
payment body. -/
def create_reservation (request_data : Option JVal) (uCreate : Upstream)
    (uLoyaltyGet : Upstream) (uPaymentPost : JVal → Upstream)
    (uLoyaltyPost : Upstream) : Except PyExc (Option JVal) × List Call :=
  match make_request uCreate none with
  | .error e => (.error e, [.postReservation request_data])
  | .ok rO =>
      if !truthyOpt rO then (.ok none, [.postReservation request_data])
      else
        match rO with
        | some r =>
            match jset r "status" (.str "RESERVED") with
            | .error e => (.error e, [.postReservation request_data])
            | .ok r1 =>
            match jget r1 "startDate" with
            | .error e => (.error e, [.postReservation request_data])
            | .ok sdv =>
            match pyFromIso sdv with
            | .error e => (.error e, [.postReservation request_data])
            | .ok sd =>
            match jget r1 "endDate" with
            | .error e => (.error e, [.postReservation request_data])
            | .ok edv =>
            match pyFromIso edv with
            | .error e => (.error e, [.postReservation request_data])
            | .ok ed =>
            match jget r1 "price" with
            | .error e => (.error e, [.postReservation request_data])
            | .ok pv =>
            match pyNum pv with
            | .error e => (.error e, [.postReservation request_data])
            | .ok p =>
            let nights : ℤ := dateDiffDays sd ed
            let total_price : ℚ := p * (nights : ℚ)
            match make_request uLoyaltyGet none with
            | .error e => (.error e, [.postReservation request_data, .getLoyalty])
            | .ok loy =>
            match (match loy with
                   | some lv => jget lv "discount"
                   | none => .error PyExc.typeError) with
            | .error e => (.error e, [.postReservation request_data, .getLoyalty])
            | .ok discJ =>
            match pyNum discJ with
            | .error e => (.error e, [.postReservation request_data, .getLoyalty])
            | .ok disc =>
            let discounted_price : ℚ := total_price * (1 - disc / 100)
            match jset r1 "discount" discJ with
            | .error e => (.error e, [.postReservation request_data, .getLoyalty])
            | .ok r2 =>
            match jget r2 "reservationUid" with
            | .error e => (.error e, [.postReservation request_data, .getLoyalty])
            | .ok ruid =>
            let payment_json : JVal :=
              .obj [("price", .num discounted_price),
                    ("reservationUid", ruid),
                    ("status", .str "PAID")]
            match make_request (uPaymentPost payment_json) none with
            | .error e =>
                (.error e,
                 [.postReservation request_data, .getLoyalty,
                  .postPayment payment_json])
            | .ok pay =>
                if truthyOpt pay then
                  match pay with
                  | some payv =>
                      match jset r2 "payment" payv with
                      | .error e =>
                          (.error e,
                           [.postReservation request_data, .getLoyalty,
                            .postPayment payment_json])
                      | .ok r3 =>
                      match jget payv "status" with
                      | .error e =>
                          (.error e,
                           [.postReservation request_data, .getLoyalty,
                            .postPayment payment_json])
                      | .ok st =>
                      match jset r3 "status" st with
                      | .error e =>
                          (.error e,
                           [.postReservation request_data, .getLoyalty,
                            .postPayment payment_json])
                      | .ok r4 =>
                      match make_request uLoyaltyPost none with
                      | .error e =>
                          (.error e,
                           [.postReservation request_data, .getLoyalty,
                            .postPayment payment_json, .postLoyalty])
                      | .ok _ =>
                          match jdel r4 "price" with
                          | .error e =>
                              (.error e,
                               [.postReservation request_data, .getLoyalty,
                                .postPayment payment_json, .postLoyalty])
                          | .ok r5 =>
                              (.ok (some r5),
                               [.postReservation request_data, .getLoyalty,
                                .postPayment payment_json, .postLoyalty])
                  | none =>
                      (.error .typeError,
                       [.postReservation request_data, .getLoyalty,
                        .postPayment payment_json])
                else
                  match jdel r2 "price" with
                  | .error e =>
                      (.error e,
                       [.postReservation request_data, .getLoyalty,
                        .postPayment payment_json])
                  | .ok r5 =>
                      (.ok (some r5),
                       [.postReservation request_data, .getLoyalty,
                        .postPayment payment_json])
        | none => (.ok none, [.postReservation request_data])

/-- `ServiceClient.get_hotels`: one call to the reservation service's hotel
listing endpoint, with the pagination parameters as query parameters,
validated against `HotelPaginationSchema`. -/
def get_hotels (page size : ℤ) (uHotels : Upstream) :
    Except PyExc (Option JVal) × List Call :=
  (make_request uHotels (some HotelPaginationSchema), [.getHotels page size])

/-- `ServiceClient.get_loyalty`: one call to the loyalty service, validated
against `LoyaltySchema`. -/
def client_get_loyalty (uLoy : Upstream) :
    Except PyExc (Option JVal) × List Call :=
  (make_request uLoy (some LoyaltySchema), [.getLoyalty])

/-- Flask's `jsonify` of a value that can be `None`. -/
def jsonify : Option JVal → JVal
  | none => .null
  | some v => v

/-- `GET /api/v1/hotels` (wrapped in `handle_service_error`). -/
def get_hotels_route (page size : ℤ) (uHotels : Upstream) :
    Except PyExc (ℕ × JVal) × List Call :=
  match get_hotels page size uHotels with
  | (.error e, tr) => (handle_service_error (.error e), tr)
  | (.ok v, tr) => (handle_service_error (.ok (200, jsonify v)), tr)

/-- `GET /api/v1/reservations` (wrapped in `handle_service_error`): check
the identity header, then list-and-merge. -/
def get_reservations_route (hdr : Option String) (uResv : Upstream)
    (uPay : JVal → Upstream) : Except PyExc (ℕ × JVal) × List Call :=
  match check_user_header hdr with
  | .error e => (handle_service_error (.error e), [])
  | .ok _ =>
      match get_user_reservations uResv uPay with
      | (.error e, tr) => (handle_service_error (.error e), tr)
      | (.ok v, tr) => (handle_service_error (.ok (200, jsonify v)), tr)

/-- `POST /api/v1/reservations` — not wrapped in `handle_service_error`:
exceptions propagate out of the route. The raw request body is forwarded to
`create_reservation` without validation. -/
def create_reservation_route (hdr : Option String) (request_data : Option JVal)
    (uCreate uLoyaltyGet : Upstream) (uPaymentPost : JVal → Upstream)
    (uLoyaltyPost : Upstream) : Except PyExc (ℕ × JVal) × List Call :=
  match check_user_header hdr with
  | .error e => (.error e, [])
  | .ok _ =>
      match create_reservation request_data uCreate uLoyaltyGet uPaymentPost
          uLoyaltyPost with
      | (.error e, tr) => (.error e, tr)
      | (.ok v, tr) => (.ok (200, jsonify v), tr)

/-- `GET /api/v1/reservations/{uid}` — not wrapped in
`handle_service_error`. -/
def get_reservation_route (hdr : Option String) (uid : String)
    (uResv : Upstream) (uPay : JVal → Upstream) :
    Except PyExc (ℕ × JVal) × List Call :=
  match check_user_header hdr with
  | .error e => (.error e, [])
  | .ok _ =>
      match get_reservation_by_id uid uResv uPay with
      | (.error e, tr) => (.error e, tr)
      | (.ok v, tr) => (.ok (200, jsonify v), tr)

/-- `DELETE /api/v1/reservations/{uid}` — not wrapped in
`handle_service_error`; the result of `delete_reservation_by_id` is bound
but ignored (a `TODO` remains in the source), and the route answers
`204` with a fixed message. -/
def cancel_reservation_route (hdr : Option String) (uid : String)
    (uDelResv uGetPay : Upstream) (uDelPay : JVal → Upstream) :
    Except PyExc (ℕ × JVal) × List Call :=
  match check_user_header hdr with
  | .error e => (.error e, [])
  | .ok _ =>
      match delete_reservation_by_id uid uDelResv uGetPay uDelPay with
      | (.error e, tr) => (.error e, tr)
      | (.ok _, tr) =>
          (.ok (204, .obj [("message", .str "Reservation canceled")]), tr)

/-- `GET /api/v1/me` (wrapped in `handle_service_error`): reservations and
loyalty under one envelope. -/
def get_user_info_route (hdr : Option String) (uResv : Upstream)
    (uPay : JVal → Upstream) (uLoy : Upstream) :
    Except PyExc (ℕ × JVal) × List Call :=
  match check_user_header hdr with
  | .error e => (handle_service_error (.error e), [])
  | .ok _ =>
      match get_user_reservations uResv uPay with
      | (.error e, tr) => (handle_service_error (.error e), tr)
      | (.ok rv, tr) =>
          match client_get_loyalty uLoy with
          | (.error e, tr2) => (handle_service_error (.error e), tr ++ tr2)
          | (.ok lv, tr2) =>
              (handle_service_error
                 (.ok (200, .obj [("reservations", jsonify rv),
                                  ("loyalty", jsonify lv)])),
               tr ++ tr2)

/-- `GET /api/v1/loyalty` — no identity check (`headers.get` tolerates an
absent header) and no error handler: the loyalty service is called
directly and its JSON body and status code are forwarded as-is. An
unreachable backend raises; an empty body makes `response.json()` raise
(modelled as `valueError`). -/
def get_loyalty_route (_hdr : Option String) (uLoy : Upstream) :
    Except PyExc (ℕ × JVal) × List Call :=
  match uLoy with
  | .unreachable => (.error .connectionError, [.getLoyaltyDirect])
  | .status code body =>
      match body with
      | some b => (.ok (code, b), [.getLoyaltyDirect])
      | none => (.error .valueError, [.getLoyaltyDirect])

/-! ### Dictionary lemmas -/

theorem lookup_setKey_self (l : List (String × JVal)) (k : String) (v : JVal) :
    lookupKey (setKey l k v) k = some v := by
  induction l with
  | nil => simp [setKey, lookupKey]
  | cons kv rest ih =>
      obtain ⟨k', v'⟩ := kv
      by_cases h : k' = k
      · simp [setKey, lookupKey, h]
      · simp [setKey, lookupKey, h, ih]

theorem lookup_setKey_other (l : List (String × JVal)) (k k' : String)
    (v : JVal) (h : k' ≠ k) :
    lookupKey (setKey l k v) k' = lookupKey l k' := by
  induction l with
  | nil => simp [setKey, lookupKey, Ne.symm h]
  | cons kv rest ih =>
      obtain ⟨k0, v0⟩ := kv
      by_cases h0 : k0 = k
      · subst h0
        simp [setKey, lookupKey, Ne.symm h]
      · simp [setKey, lookupKey, h0, ih]

theorem lookup_delKey_self (l : List (String × JVal)) (k : String) :
    lookupKey (delKey l k) k = none := by
  induction l with
  | nil => simp [delKey, lookupKey]
  | cons kv rest ih =>
      obtain ⟨k0, v0⟩ := kv
      by_cases h0 : k0 = k
      · subst h0
        simpa [delKey, List.filter_cons] using ih
      · simpa [delKey, List.filter_cons, h0, lookupKey] using ih

theorem mem_keys_delKey (l : List (String × JVal)) (k : String) :
    k ∉ (delKey l k).map Prod.fst := by
  intro hmem
  obtain ⟨kv, hkv, hfst⟩ := List.mem_map.mp hmem
  have hf := List.of_mem_filter hkv
  simp only [bne_iff_ne, ne_eq, decide_eq_true_eq] at hf
  exact hf hfst

theorem jget_jset_self (v w x : JVal) (k : String)
    (h : jset v k x = .ok w) : jget w k = .ok x := by
  cases v with
  | obj l =>
      simp only [jset, Except.ok.injEq] at h
      subst h
      simp [jget, lookup_setKey_self]
  | null => simp [jset] at h
  | bool b => simp [jset] at h
  | num q => simp [jset] at h
  | str s => simp [jset] at h
  | arr xs => simp [jset] at h

theorem jget_jset_other (v w x : JVal) (k k' : String)
    (h : jset v k x = .ok w) (hk : k' ≠ k) : jget w k' = jget v k' := by
  cases v with
  | obj l =>
      simp only [jset, Except.ok.injEq] at h
      subst h
      simp [jget, lookup_setKey_other l k k' x hk]
  | null => simp [jset] at h
  | bool b => simp [jset] at h
  | num q => simp [jset] at h
  | str s => simp [jset] at h
  | arr xs => simp [jset] at h

/-! ### Concrete fixtures and result helpers -/

/-- Read a field of a successful non-empty client result. -/
def resultGet (r : Except PyExc (Option JVal)) (k : String) : Except PyExc JVal :=
  match r with
  | .ok (some v) => jget v k
  | .ok none => .error .typeError
  | .error e => .error e

/-- A reservation body as the reservation service returns it. -/
def sampleReservationBody : JVal :=
  .obj [("reservationUid", .str "11111111-2222-3333-4444-555555555555"),
        ("hotel", .obj [("hotelUid", .str "aaaaaaaa-bbbb-cccc-dddd-eeeeeeeeeeee"),
                        ("name", .str "Hotel"),
                        ("country", .str "RU"),
                        ("city", .str "Moscow"),
                        ("address", .str "Main 1"),
                        ("stars", .num 5)]),
        ("startDate", .str "2024-01-01"),
        ("endDate", .str "2024-01-04")]

/-- A full payment record whose status is REVERSED — a status the payment
service can legitimately report (`PaymentStatus` in `schemas.py` is
{PAID, REVERSED, CANCELED}). -/
def paymentReversed : JVal :=
  .obj [("paymentUid", .str "99999999-8888-7777-6666-555555555555"),
        ("status", .str "REVERSED"),
        ("price", .num 100)]

/-- A non-empty payment-service response that lacks the `paymentUid` key. -/
def paymentNoUid : JVal :=
  .obj [("status", .str "PAID"), ("price", .num 100)]

/-! ### Claims -/

/-- Claim C4 (code_bug): when the reservation-service deletion succeeds with
no content and no payment record exists, `delete_reservation_by_id`
computes the not-implemented-style result 501 — but the route
`cancel_reservation` discards that result (a `TODO` remains in the source)
and answers the client with a generic 204 "Reservation canceled" success,
contradicting the claimed client-facing outcome. -/
theorem C4_cancel_result_discarded :
    (delete_reservation_by_id "r1" (.status 204 none) (.status 200 none)
      (fun _ => .status 204 none)).1 = .ok 501
    ∧ (cancel_reservation_route (some "alice") "r1" (.status 204 none)
        (.status 200 none) (fun _ => .status 204 none)).1
      = .ok (204, .obj [("message", .str "Reservation canceled")]) :=
  ⟨rfl, rfl⟩

/-- Claim C9: when the reservation service reports an empty reservation
list (or an empty body), the list-reservations endpoint responds 200 with a
JSON null body — not an empty list — after a single backend call. -/
theorem C9_empty_list_returns_null (uResv : Upstream) (uPay : JVal → Upstream)
    (u : String)
    (h : uResv = .status 200 (some (.arr [])) ∨ uResv = .status 200 none) :
    (get_reservations_route (some u) uResv uPay).1 = .ok (200, .null)
    ∧ (get_reservations_route (some u) uResv uPay).2 = [.getReservations] := by
  rcases h with h | h <;> subst h <;> exact ⟨rfl, rfl⟩

/-- Witness for C9 at a concrete request. -/
theorem C9_empty_list_returns_null_witness :
    (get_reservations_route (some "alice") (.status 200 (some (.arr [])))
      (fun _ => .status 200 none)).1 = .ok (200, .null)
    ∧ (get_reservations_route (some "alice") (.status 200 (some (.arr [])))
        (fun _ => .status 200 none)).2 = [.getReservations] :=
  C9_empty_list_returns_null (.status 200 (some (.arr [])))
    (fun _ => .status 200 none) "alice" (Or.inl rfl)

/-- Claim C10: the payment record fetched during the merge is not
schema-validated and `del payment["paymentUid"]` assumes the key is
present: a truthy payment response lacking `paymentUid` makes both
list-reservations and get-single-reservation fail with a `KeyError`, which
`handle_service_error` does not catch, instead of producing a classified
error or applying the merge policy. -/
theorem C10_missing_paymentUid_keyerror :
    jtruthy paymentNoUid = true
    ∧ mergePayment sampleReservationBody (some paymentNoUid)
      = .error (.keyError "paymentUid")
    ∧ (get_reservation_by_id "r1" (.status 200 (some sampleReservationBody))
        (fun _ => .status 200 (some paymentNoUid))).1
      = .error (.keyError "paymentUid")
    ∧ (get_user_reservations (.status 200 (some (.arr [sampleReservationBody])))
        (fun _ => .status 200 (some paymentNoUid))).1
      = .error (.keyError "paymentUid")
    ∧ handle_service_error (.error (.keyError "paymentUid"))
      = .error (.keyError "paymentUid") :=
  ⟨rfl, rfl, rfl, rfl, rfl⟩

/-- Counterexample for C1: a reservation whose payment record has status
REVERSED is returned to the client with status REVERSED, which is outside
{RESERVED, PAID, CANCELED}. -/
theorem C1_counterexample :
    resultGet (get_reservation_by_id "r1"
        (.status 200 (some sampleReservationBody))
        (fun _ => .status 200 (some paymentReversed))).1 "status"
      = .ok (.str "REVERSED")
    ∧ "REVERSED" ∉ (["RESERVED", "PAID", "CANCELED"] : List String) :=
  ⟨rfl, by decide⟩

/-- Counterexample for C5: the loyalty endpoint is identity-scoped (the
spec's endpoint table requires `X-User-Name`), yet a request without the
header is not answered 400 — the backend call is issued regardless and the
backend's response is forwarded. -/
theorem C5_counterexample :
    (get_loyalty_route none
        (.status 200 (some (.obj [("status", .str "GOLD")])))).1
      = .ok (200, .obj [("status", .str "GOLD")])
    ∧ (get_loyalty_route none
        (.status 200 (some (.obj [("status", .str "GOLD")])))).2
      = [.getLoyaltyDirect] :=
  ⟨rfl, rfl⟩

/-- Counterexample for C6, refuting two parts of the claim: (i) the
single-reservation endpoint is not wrapped in `handle_service_error`, so a
network-layer connection failure is not converted into a 503 response —
the exception propagates out of the route; (ii) on a wrapped endpoint, a
2xx body failing shape validation is converted to a 400 whose `errors`
list degenerates to empty objects under `ValidationErrorSchema().dump` —
the response does not carry the field-level details. -/
theorem C6_counterexample :
    (get_reservation_route (some "alice") "r1" .unreachable
        (fun _ => .status 200 none)).1 = .error .connectionError
    ∧ (get_reservations_route (some "alice") (.status 200 (some .null))
        (fun _ => .status 200 none)).1
      = .ok (400, .obj [("message", .str "Invalid response format"),
                        ("errors", .arr [.obj []])]) :=
  ⟨rfl, rfl⟩

/-! ### Structure of successful dictionary operations -/

theorem lookup_delKey_other (l : List (String × JVal)) (k k' : String)
    (h : k' ≠ k) : lookupKey (delKey l k) k' = lookupKey l k' := by
  induction l with
  | nil => simp [delKey, lookupKey]
  | cons kv rest ih =>
      obtain ⟨k0, v0⟩ := kv
      by_cases h0 : k0 = k
      · subst h0
        simpa [delKey, List.filter_cons, lookupKey, Ne.symm h] using ih
      · simp only [delKey] at ih
        simp [delKey, List.filter_cons, h0, lookupKey, ih]

theorem jset_ok (v w x : JVal) (k : String) (h : jset v k x = .ok w) :
    ∃ l, v = .obj l ∧ w = .obj (setKey l k x) := by
  cases v with
  | obj l =>
      refine ⟨l, rfl, ?_⟩
      simp only [jset, Except.ok.injEq] at h
      exact h.symm
  | null => simp [jset] at h
  | bool b => simp [jset] at h
  | num q => simp [jset] at h
  | str s => simp [jset] at h
  | arr xs => simp [jset] at h

theorem jdel_ok (v w : JVal) (k : String) (h : jdel v k = .ok w) :
    ∃ l, v = .obj l ∧ w = .obj (delKey l k) := by
  cases v with
  | obj l =>
      refine ⟨l, rfl, ?_⟩
      by_cases hk : hasKey l k = true
      · simp only [jdel, hk, if_true, Except.ok.injEq] at h
        exact h.symm
      · rw [Bool.not_eq_true] at hk
        simp [jdel, hk] at h
  | null => simp [jdel] at h
  | bool b => simp [jdel] at h
  | num q => simp [jdel] at h
  | str s => simp [jdel] at h
  | arr xs => simp [jdel] at h

theorem jget_obj_ok (l : List (String × JVal)) (k : String) (x : JVal)
    (h : jget (.obj l) k = .ok x) : lookupKey l k = some x := by
  cases hl : lookupKey l k with
  | none => simp [jget, hl] at h
  | some y =>
      simp only [jget, hl, Except.ok.injEq] at h
      rw [h]

/-! ### The merge policy's guarantees -/

/-- Shape of a reservation after the payment merge: status RESERVED with an
empty payment object, or the payment snapshot without `paymentUid` with the
reservation's status equal to the payment's status. -/
def mergedReservationOk (v : JVal) : Prop :=
  (jget v "status" = .ok (.str "RESERVED") ∧ jget v "payment" = .ok (.obj []))
  ∨ (∃ q, jget v "payment" = .ok (.obj q)
      ∧ "paymentUid" ∉ q.map Prod.fst
      ∧ jget v "status" = jget (.obj q) "status")

theorem mergePayment_ok (resv : JVal) (p : Option JVal) (out : JVal)
    (h : mergePayment resv p = .ok out) : mergedReservationOk out := by
  by_cases ht : truthyOpt p = true
  · cases p with
    | none => simp [truthyOpt] at ht
    | some pv =>
        simp only [mergePayment, ht, Bool.not_true, Bool.false_eq_true,
          if_false] at h
        split at h
        · exact Except.noConfusion h
        · rename_i p' hd
          split at h
          · exact Except.noConfusion h
          · rename_i r1 hj
            split at h
            · exact Except.noConfusion h
            · rename_i st hg
              obtain ⟨pl, hpv, hp'⟩ := jdel_ok pv p' "paymentUid" hd
              subst hp'
              obtain ⟨rl, hresv, hr1⟩ := jset_ok _ _ _ _ hj
              subst hr1
              obtain ⟨l2, hl2, hout⟩ := jset_ok _ _ _ _ h
              injection hl2 with hl2'
              subst hl2'
              subst hout
              right
              refine ⟨delKey pl "paymentUid", ?_,
                mem_keys_delKey pl "paymentUid", ?_⟩
              · have h1 : lookupKey (setKey
                    (setKey rl "payment" (.obj (delKey pl "paymentUid")))
                    "status" st) "payment"
                    = some (.obj (delKey pl "paymentUid")) := by
                  rw [lookup_setKey_other _ _ _ _ (by decide)]
                  exact lookup_setKey_self _ _ _
                simp [jget, h1]
              · have h2 : lookupKey (setKey
                    (setKey rl "payment" (.obj (delKey pl "paymentUid")))
                    "status" st) "status" = some st :=
                  lookup_setKey_self _ _ _
                rw [hg]
                simp [jget, h2]
  · rw [Bool.not_eq_true] at ht
    simp only [mergePayment, ht, Bool.not_false, if_true] at h
    split at h
    · exact Except.noConfusion h
    · rename_i r1 hj
      obtain ⟨rl, hresv, hr1⟩ := jset_ok _ _ _ _ hj
      subst hr1
      obtain ⟨l2, hl2, hout⟩ := jset_ok _ _ _ _ h
      injection hl2 with hl2'
      subst hl2'
      subst hout
      left
      constructor
      · simp [jget, lookup_setKey_self]
      · have h1 : lookupKey (setKey (setKey rl "payment" (.obj []))
            "status" (.str "RESERVED")) "payment" = some (.obj []) := by
          rw [lookup_setKey_other _ _ _ _ (by decide)]
          exact lookup_setKey_self _ _ _
        simp [jget, h1]

theorem get_reservation_by_id_merge (uid : String) (uResv : Upstream)
    (uPay : JVal → Upstream) (out : JVal)
    (h : (get_reservation_by_id uid uResv uPay).1 = .ok (some out)) :
    ∃ r p, mergePayment r p = .ok out := by
  unfold get_reservation_by_id at h
  split at h
  · simp at h
  · split at h
    · simp at h
    · split at h
      · split at h
        · simp at h
        · split at h
          · simp at h
          · split at h
            · simp at h
            · rename_i r' hmp
              simp at h
              exact ⟨_, _, h ▸ hmp⟩
      · simp at h

theorem resvLoop_merge (uPay : JVal → Upstream) (rs outs : List JVal)
    (h : (resvLoop uPay rs).1 = .ok outs) :
    ∀ v ∈ outs, ∃ r p, mergePayment r p = .ok v := by
  induction rs generalizing outs with
  | nil =>
      simp only [resvLoop] at h
      simp at h
      subst h
      intro v hv
      simp at hv
  | cons r rest ih =>
      unfold resvLoop at h
      split at h
      · simp at h
      · rename_i uid heqU
        split at h
        · simp at h
        · rename_i pp heqP
          split at h
          · simp at h
          · rename_i r' hmp
            split at h
            · rename_i rest' tr heqRec
              simp at h
              subst h
              intro v hv
              rcases List.mem_cons.mp hv with hv | hv
              · exact ⟨r, pp, hv ▸ hmp⟩
              · exact ih rest' (by rw [heqRec]) v hv
            · simp at h

theorem get_user_reservations_merge (uResv : Upstream)
    (uPay : JVal → Upstream) (outs : List JVal)
    (h : (get_user_reservations uResv uPay).1 = .ok (some (.arr outs))) :
    ∀ v ∈ outs, ∃ r p, mergePayment r p = .ok v := by
  unfold get_user_reservations at h
  split at h
  · simp at h
  · split at h
    · simp at h
    · split at h
      · split at h
        · rename_i out' tr heqLoop
          simp at h
          subst h
          exact resvLoop_merge uPay _ out' (by rw [heqLoop])
        · simp at h
      · simp at h

/-- Claim C1 (amended): every reservation returned by the single- or
list-reservation operation either has status RESERVED with an empty payment
object, or embeds the payment snapshot without its `paymentUid` and carries
that payment's status — which can be any status the payment service
reports (REVERSED included), not only {RESERVED, PAID, CANCELED}. -/
theorem C1_amended_merge_invariant :
    (∀ resv p out, mergePayment resv p = .ok out → mergedReservationOk out)
    ∧ (∀ uid uResv uPay out,
        (get_reservation_by_id uid uResv uPay).1 = .ok (some out) →
        mergedReservationOk out)
    ∧ (∀ uResv uPay outs,
        (get_user_reservations uResv uPay).1 = .ok (some (.arr outs)) →
        ∀ v ∈ outs, mergedReservationOk v) := by
  refine ⟨mergePayment_ok, ?_, ?_⟩
  · intro uid uResv uPay out h
    obtain ⟨r, p, hmp⟩ := get_reservation_by_id_merge uid uResv uPay out h
    exact mergePayment_ok r p out hmp
  · intro uResv uPay outs h v hv
    obtain ⟨r, p, hmp⟩ := get_user_reservations_merge uResv uPay outs h v hv
    exact mergePayment_ok r p v hmp

/-- The reservation of `C1_counterexample` as the client receives it. -/
def c1MergedOut : JVal :=
  .obj [("reservationUid", .str "11111111-2222-3333-4444-555555555555"),
        ("hotel", .obj [("hotelUid", .str "aaaaaaaa-bbbb-cccc-dddd-eeeeeeeeeeee"),
                        ("name", .str "Hotel"),
                        ("stars", .num 5),
                        ("fullAddress", .str "RU, Moscow, Main 1")]),
        ("startDate", .str "2024-01-01"),
        ("endDate", .str "2024-01-04"),
        ("payment", .obj [("status", .str "REVERSED"), ("price", .num 100)]),
        ("status", .str "REVERSED")]

/-- Witness for the amended C1 at a concrete request. -/
theorem C1_amended_merge_invariant_witness : mergedReservationOk c1MergedOut :=
  C1_amended_merge_invariant.2.1 "r1"
    (.status 200 (some sampleReservationBody))
    (fun _ => .status 200 (some paymentReversed)) c1MergedOut rfl

/-! ### Merge policy, stated as the per-reservation rule -/

/-- One iteration of the payment merge: look up the reservation identifier,
fetch the payment record (no schema) and apply `mergePayment`. -/
def mergeOne (uPay : JVal → Upstream) (r : JVal) : Except PyExc JVal :=
  match jget r "reservationUid" with
  | .error e => .error e
  | .ok uid =>
      match make_request (uPay uid) none with
      | .error e => .error e
      | .ok p => mergePayment r p

theorem mergePayment_default (resv : JVal) (p : Option JVal) (out : JVal)
    (ht : truthyOpt p = false) (h : mergePayment resv p = .ok out) :
    jget out "status" = .ok (.str "RESERVED")
      ∧ jget out "payment" = .ok (.obj []) := by
  simp only [mergePayment, ht, Bool.not_false, if_true] at h
  split at h
  · exact Except.noConfusion h
  · rename_i r1 hj
    obtain ⟨rl, hresv, hr1⟩ := jset_ok _ _ _ _ hj
    subst hr1
    obtain ⟨l2, hl2, hout⟩ := jset_ok _ _ _ _ h
    injection hl2 with hl2'
    subst hl2'
    subst hout
    constructor
    · simp [jget, lookup_setKey_self]
    · have h1 : lookupKey (setKey (setKey rl "payment" (.obj []))
          "status" (.str "RESERVED")) "payment" = some (.obj []) := by
        rw [lookup_setKey_other _ _ _ _ (by decide)]
        exact lookup_setKey_self _ _ _
      simp [jget, h1]

theorem mergePayment_record (resv : JVal) (pl : List (String × JVal))
    (st out : JVal)
    (hk : hasKey pl "paymentUid" = true)
    (hst : lookupKey pl "status" = some st)
    (h : mergePayment resv (some (.obj pl)) = .ok out) :
    jget out "status" = .ok st
      ∧ jget out "payment" = .ok (.obj (delKey pl "paymentUid")) := by
  have ht : truthyOpt (some (.obj pl)) = true := by
    cases pl with
    | nil => simp [hasKey, lookupKey] at hk
    | cons a l => simp [truthyOpt, jtruthy]
  have hgd : jget (.obj (delKey pl "paymentUid")) "status" = .ok st := by
    simp [jget, lookup_delKey_other pl "paymentUid" "status" (by decide), hst]
  simp only [mergePayment, ht, Bool.not_true, Bool.false_eq_true,
    if_false] at h
  split at h
  · exact Except.noConfusion h
  · rename_i p' hd
    have hd' : jdel (.obj pl) "paymentUid"
        = .ok (.obj (delKey pl "paymentUid")) := by
      simp [jdel, hk]
    rw [hd'] at hd
    injection hd with hd2
    subst hd2
    split at h
    · exact Except.noConfusion h
    · rename_i r1 hj
      split at h
      · rename_i e hge
        rw [hgd] at hge
        exact Except.noConfusion hge
      · rename_i st' hge
        rw [hgd] at hge
        injection hge with hge2
        subst hge2
        obtain ⟨rl, hresv, hr1⟩ := jset_ok _ _ _ _ hj
        subst hr1
        obtain ⟨l2, hl2, hout⟩ := jset_ok _ _ _ _ h
        injection hl2 with hl2'
        subst hl2'
        subst hout
        constructor
        · simp [jget, lookup_setKey_self]
        · have h1 : lookupKey (setKey
              (setKey rl "payment" (.obj (delKey pl "paymentUid")))
              "status" st) "payment"
              = some (.obj (delKey pl "paymentUid")) := by
            rw [lookup_setKey_other _ _ _ _ (by decide)]
            exact lookup_setKey_self _ _ _
          simp [jget, h1]

theorem resvLoop_independent (uPay : JVal → Upstream) (rs outs : List JVal)
    (h : (resvLoop uPay rs).1 = .ok outs) :
    outs.length = rs.length
      ∧ ∀ i (hi : i < outs.length) (hr : i < rs.length),
          mergeOne uPay (rs.get ⟨i, hr⟩) = .ok (outs.get ⟨i, hi⟩) := by
  induction rs generalizing outs with
  | nil =>
      simp only [resvLoop] at h
      simp at h
      subst h
      refine ⟨rfl, ?_⟩
      intro i hi hr
      simp at hi
  | cons r rest ih =>
      unfold resvLoop at h
      split at h
      · simp at h
      · rename_i uid heqU
        split at h
        · simp at h
        · rename_i pp heqP
          split at h
          · simp at h
          · rename_i r' hmp
            split at h
            · rename_i rest' tr heqRec
              simp at h
              subst h
              obtain ⟨hlen, hidx⟩ := ih rest' (by rw [heqRec])
              refine ⟨by simp [hlen], ?_⟩
              intro i hi hr
              cases i with
              | zero => simp [mergeOne, heqU, heqP, hmp]
              | succ n =>
                  simpa using hidx n (by simpa using hi) (by simpa using hr)
            · simp at h

theorem by_id_uses_mergeOne (uid : String) (uResv : Upstream)
    (uPay : JVal → Upstream) (r : JVal)
    (hm : make_request uResv (some ReservationResponseSchema) = .ok (some r))
    (ht : jtruthy r = true) :
    (get_reservation_by_id uid uResv uPay).1 = (mergeOne uPay r).map some := by
  unfold get_reservation_by_id
  rw [hm]
  simp only [truthyOpt, ht, Bool.not_true, Bool.false_eq_true, if_false]
  unfold mergeOne
  cases hg : jget r "reservationUid" with
  | error e => simp [hg, Except.map]
  | ok ruid =>
      cases hp : make_request (uPay ruid) none with
      | error e => simp [hg, hp, Except.map]
      | ok pp =>
          cases hmp : mergePayment r pp with
          | error e => simp [hg, hp, hmp, Except.map]
          | ok r' => simp [hg, hp, hmp, Except.map]

/-- Claim C2: the merge policy — no payment record (falsy lookup) defaults
the reservation to status RESERVED with an empty payment object; an
existing payment record is embedded with its `paymentUid` removed and its
status becomes the reservation's status; the list operation applies exactly
this per-reservation rule to each reservation independently, and the
single-reservation operation applies the same rule. -/
theorem C2_merge_policy :
    (∀ resv p out, truthyOpt p = false → mergePayment resv p = .ok out →
        jget out "status" = .ok (.str "RESERVED")
          ∧ jget out "payment" = .ok (.obj []))
    ∧ (∀ resv pl st out, hasKey pl "paymentUid" = true →
        lookupKey pl "status" = some st →
        mergePayment resv (some (.obj pl)) = .ok out →
        jget out "status" = .ok st
          ∧ jget out "payment" = .ok (.obj (delKey pl "paymentUid")))
    ∧ (∀ uPay rs outs, (resvLoop uPay rs).1 = .ok outs →
        outs.length = rs.length
          ∧ ∀ i (hi : i < outs.length) (hr : i < rs.length),
              mergeOne uPay (rs.get ⟨i, hr⟩) = .ok (outs.get ⟨i, hi⟩))
    ∧ (∀ uid uResv uPay r,
        make_request uResv (some ReservationResponseSchema) = .ok (some r) →
        jtruthy r = true →
        (get_reservation_by_id uid uResv uPay).1
          = (mergeOne uPay r).map some) :=
  ⟨mergePayment_default, mergePayment_record, resvLoop_independent,
   by_id_uses_mergeOne⟩

/-- The default-merge output for `sampleReservationBody`. -/
def c2DefaultOut : JVal :=
  .obj [("reservationUid", .str "11111111-2222-3333-4444-555555555555"),
        ("hotel", .obj [("hotelUid", .str "aaaaaaaa-bbbb-cccc-dddd-eeeeeeeeeeee"),
                        ("name", .str "Hotel"),
                        ("country", .str "RU"),
                        ("city", .str "Moscow"),
                        ("address", .str "Main 1"),
                        ("stars", .num 5)]),
        ("startDate", .str "2024-01-01"),
        ("endDate", .str "2024-01-04"),
        ("payment", .obj []),
        ("status", .str "RESERVED")]

/-- Witness for C2 at a concrete merge. -/
theorem C2_merge_policy_witness :
    jget c2DefaultOut "status" = .ok (.str "RESERVED")
      ∧ jget c2DefaultOut "payment" = .ok (.obj []) :=
  C2_merge_policy.1 sampleReservationBody none c2DefaultOut rfl rfl

/-! ### Error classification (C6) and request validation (C5) -/

theorem gur_request_error (uResv : Upstream) (uPay : JVal → Upstream)
    (e : PyExc)
    (h : make_request uResv (some ReservationResponseSchemaMany) = .error e) :
    get_user_reservations uResv uPay = (.error e, [.getReservations]) := by
  unfold get_user_reservations
  rw [h]

/-- Claim C6 (amended): on the endpoints wrapped in `handle_service_error`
(here: list-reservations), backend failures are classified — unreachable →
503 "Service temporarily unavailable"; backend 404 → 400 with message
"Resource not found" (the not-found condition); a 2xx body failing shape
validation is converted (a response, not a crash) to the 400
"Invalid response format" response, whose `errors` list — serialized
through `ErrorDescriptionSchema` — degenerates to one empty object per
failing key, so the field-level details are lost; any other HTTP error →
500 "Internal service error". The endpoints not wrapped in the decorator
(single-reservation, create, cancel, loyalty) propagate these exceptions
unhandled. -/
theorem C6_amended_error_classification :
    (∀ (u : String) (uPay : JVal → Upstream),
        (get_reservations_route (some u) .unreachable uPay).1
          = .ok (503, errorBody "Service temporarily unavailable"))
    ∧ (∀ (u : String) (uPay : JVal → Upstream) (b : Option JVal),
        (get_reservations_route (some u) (.status 404 b) uPay).1
          = .ok (400, validationBody "Resource not found" none))
    ∧ (∀ (u : String) (uPay : JVal → Upstream) (body msgs : JVal),
        ReservationResponseSchemaMany body = .error msgs →
        (get_reservations_route (some u) (.status 200 (some body)) uPay).1
          = .ok (400, validationBody "Invalid response format" (some msgs)))
    ∧ (∀ (u : String) (uPay : JVal → Upstream) (c : ℕ) (b : Option JVal),
        400 ≤ c → c < 600 → c ≠ 404 →
        (get_reservations_route (some u) (.status c b) uPay).1
          = .ok (500, errorBody "Internal service error"))
    ∧ (∀ (u uid : String) (uPay : JVal → Upstream),
        (get_reservation_route (some u) uid .unreachable uPay).1
          = .error .connectionError)
    ∧ (∀ (m : String) (l : List (String × JVal)),
        validationBody m (some (.obj l))
          = .obj [("message", .str m),
                  ("errors", .arr (l.map (fun _ => .obj [])))]) := by
  refine ⟨?_, ?_, ?_, ?_, ?_, ?_⟩
  · intro u uPay
    rfl
  · intro u uPay b
    rfl
  · intro u uPay body msgs hload
    have hmr : make_request (.status 200 (some body))
        (some ReservationResponseSchemaMany)
        = .error (.schemaValidation "Invalid response format" (some msgs)) := by
      simp [make_request, hload]
    have hgur := gur_request_error (.status 200 (some body)) uPay _ hmr
    unfold get_reservations_route
    rw [hgur]
    rfl
  · intro u uPay c b h1 h2 h3
    have hmr : make_request (.status c b)
        (some ReservationResponseSchemaMany) = .error (.httpError c) := by
      simp [make_request, h1, h2, h3]
    have hgur := gur_request_error (.status c b) uPay _ hmr
    unfold get_reservations_route
    rw [hgur]
    rfl
  · intro u uid uPay
    rfl
  · intro m l
    rfl

/-- The failing body of `C6_amended_error_classification_witness`. -/
def c6BadBodyMsgs : JVal := .obj [("_schema", .arr [.str "Invalid input type."])]

/-- Witness for the amended C6 at a concrete malformed backend body. -/
theorem C6_amended_error_classification_witness :
    (get_reservations_route (some "alice") (.status 200 (some .null))
        (fun _ => .status 200 none)).1
      = .ok (400, validationBody "Invalid response format" (some c6BadBodyMsgs)) :=
  C6_amended_error_classification.2.2.1 "alice" (fun _ => .status 200 none)
    .null c6BadBodyMsgs rfl

theorem create_reservation_trace_head (rd : Option JVal) (u1 u2 : Upstream)
    (u3 : JVal → Upstream) (u4 : Upstream) :
    (create_reservation rd u1 u2 u3 u4).2.head? = some (.postReservation rd) := by
  unfold create_reservation
  repeat'
    first
      | rfl
      | split
      | dsimp only

/-- Claim C5 (amended): a missing `X-User-Name` header yields the 400
validation response before any backend call only on the endpoints wrapped
in `handle_service_error` (list-reservations, user-profile); the create-,
get- and cancel-reservation endpoints raise the validation error unhandled
(still before any backend call) instead of responding 400; the loyalty
endpoint performs no header check and issues its backend call regardless;
and the inbound create body is forwarded to the reservation service
unvalidated, so a malformed body is not rejected with 400. -/
theorem C5_amended_header_validation :
    (∀ uResv uPay,
        get_reservations_route none uResv uPay
          = (.ok (400, validationBody "X-User-Name header is required" none),
             []))
    ∧ (∀ uResv uPay uLoy,
        get_user_info_route none uResv uPay uLoy
          = (.ok (400, validationBody "X-User-Name header is required" none),
             []))
    ∧ (∀ rd u1 u2 u3 u4,
        create_reservation_route none rd u1 u2 u3 u4
          = (.error (.schemaValidation "X-User-Name header is required" none),
             []))
    ∧ (∀ uid uResv uPay,
        get_reservation_route none uid uResv uPay
          = (.error (.schemaValidation "X-User-Name header is required" none),
             []))
    ∧ (∀ uid u1 u2 u3,
        cancel_reservation_route none uid u1 u2 u3
          = (.error (.schemaValidation "X-User-Name header is required" none),
             []))
    ∧ (∀ hdr uLoy, (get_loyalty_route hdr uLoy).2 = [.getLoyaltyDirect])
    ∧ (∀ u rd u1 u2 u3 u4,
        (create_reservation_route (some u) rd u1 u2 u3 u4).2.head?
          = some (.postReservation rd)) := by
  refine ⟨fun _ _ => rfl, fun _ _ _ => rfl, fun _ _ _ _ _ => rfl,
    fun _ _ _ => rfl, fun _ _ _ _ => rfl, ?_, ?_⟩
  · intro hdr uLoy
    cases uLoy with
    | unreachable => rfl
    | status code body => cases body <;> rfl
  · intro u rd u1 u2 u3 u4
    have htr : (create_reservation_route (some u) rd u1 u2 u3 u4).2
        = (create_reservation rd u1 u2 u3 u4).2 := by
      unfold create_reservation_route
      cases hc : create_reservation rd u1 u2 u3 u4 with
      | mk res tr => cases res <;> simp [check_user_header]
    rw [htr]
    exact create_reservation_trace_head rd u1 u2 u3 u4

/-! ### Schema loads preserve the known fields (C8) -/

theorem fieldStr_id (w z : JVal) (h : fieldStr w = .ok z) : z = w := by
  cases w <;> simp [fieldStr] at h <;> simp [h]

theorem fieldInt_id (w z : JVal) (h : fieldInt w = .ok z) : z = w := by
  cases w with
  | num q =>
      by_cases hd : q.den = 1
      · simp [fieldInt, hd] at h
        simp [h]
      · simp [fieldInt, hd] at h
  | null => simp [fieldInt] at h
  | bool b => simp [fieldInt] at h
  | str s => simp [fieldInt] at h
  | arr xs => simp [fieldInt] at h
  | obj l => simp [fieldInt] at h

theorem fieldFloat_id (w z : JVal) (h : fieldFloat w = .ok z) : z = w := by
  cases w <;> simp [fieldFloat] at h <;> simp [h]

theorem fieldUUID_id (w z : JVal) (h : fieldUUID w = .ok z) : z = w := by
  cases w with
  | str s =>
      by_cases hu : isUUIDString s = true
      · simp [fieldUUID, hu] at h
        simp [h]
      · simp [fieldUUID, hu] at h
  | null => simp [fieldUUID] at h
  | bool b => simp [fieldUUID] at h
  | num q => simp [fieldUUID] at h
  | arr xs => simp [fieldUUID] at h
  | obj l => simp [fieldUUID] at h

theorem fieldIntRange_id (lo hi : ℕ) (w z : JVal)
    (h : fieldIntRange lo hi w = .ok z) : z = w := by
  unfold fieldIntRange at h
  split at h
  · rename_i q hq
    split at h
    · injection h with h'
      rw [← h']
      exact fieldInt_id w (.num q) hq
    · exact Except.noConfusion h
  · rename_i x hx hq
    injection h with h'
    rw [← h']
    exact fieldInt_id w x hq
  · exact Except.noConfusion h

theorem wrapPlain_id (f : JVal → Except String JVal)
    (hf : ∀ w z, f w = .ok z → z = w) (v x : JVal)
    (h : wrapPlain f v = .ok x) : x = v := by
  unfold wrapPlain at h
  split at h
  · rename_i z hz
    injection h with h'
    exact h'.symm.trans (hf v z hz)
  · exact Except.noConfusion h

theorem loadMany_spec (sch : SchemaFn) (xs ys : List JVal)
    (h : loadMany sch xs = .ok ys) :
    ys.length = xs.length
      ∧ ∀ i (hy : i < ys.length) (hx : i < xs.length),
          sch (xs.get ⟨i, hx⟩) = .ok (ys.get ⟨i, hy⟩) := by
  induction xs generalizing ys with
  | nil =>
      simp only [loadMany] at h
      simp at h
      subst h
      refine ⟨rfl, ?_⟩
      intro i hi hx
      simp at hi
  | cons x xs ih =>
      unfold loadMany at h
      split at h
      · rename_i y hy
        split at h
        · rename_i ys' hys
          simp at h
          subst h
          obtain ⟨hlen, hidx⟩ := ih ys' hys
          refine ⟨by simp [hlen], ?_⟩
          intro i hi hx
          cases i with
          | zero => simpa using hy
          | succ n => simpa using hidx n (by simpa using hi) (by simpa using hx)
        · exact Except.noConfusion h
      · exact Except.noConfusion h

theorem fieldListNested_ok (sch : SchemaFn) (v x : JVal)
    (h : fieldListNested sch v = .ok x) :
    ∃ xs ys, v = .arr xs ∧ x = .arr ys ∧ loadMany sch xs = .ok ys := by
  cases v with
  | arr xs =>
      simp only [fieldListNested] at h
      split at h
      · rename_i ys hys
        injection h with h'
        exact ⟨xs, ys, rfl, h'.symm, hys⟩
      · exact Except.noConfusion h
  | null => simp [fieldListNested] at h
  | bool b => simp [fieldListNested] at h
  | num q => simp [fieldListNested] at h
  | str s => simp [fieldListNested] at h
  | obj l => simp [fieldListNested] at h

theorem lookupKey_eq_none (l : List (String × JVal)) (k : String)
    (h : k ∉ l.map Prod.fst) : lookupKey l k = none := by
  induction l with
  | nil => rfl
  | cons kv rest ih =>
      obtain ⟨k0, v0⟩ := kv
      simp only [List.map_cons, List.mem_cons] at h
      push_neg at h
      obtain ⟨h1, h2⟩ := h
      have hne : k0 ≠ k := fun hh => h1 hh.symm
      simp [lookupKey, hne, ih h2]

theorem loadFields_keys (specs : List FieldSpec) (l out : List (String × JVal))
    (h : loadFields specs l = .ok out) :
    ∀ kv ∈ out, kv.1 ∈ specs.map FieldSpec.name := by
  induction specs generalizing out with
  | nil =>
      simp only [loadFields] at h
      simp at h
      subst h
      intro kv hkv
      simp at hkv
  | cons s rest ih =>
      unfold loadFields at h
      split at h
      · split at h
        · split at h
          · rename_i out1 hrec
            injection h with h'
            subst h'
            intro kv hkv
            rcases List.mem_cons.mp hkv with hkv | hkv
            · subst hkv; simp
            · simp only [List.map_cons, List.mem_cons]
              exact Or.inr (ih out1 hrec kv hkv)
          · exact Except.noConfusion h
        · exact Except.noConfusion h
      · split at h
        · exact Except.noConfusion h
        · intro kv hkv
          simp only [List.map_cons, List.mem_cons]
          exact Or.inr (ih out h kv hkv)

theorem loadFields_lookup (specs : List FieldSpec)
    (l out : List (String × JVal)) (spec : FieldSpec)
    (h : loadFields specs l = .ok out)
    (hspec : spec ∈ specs)
    (huniq : (specs.map FieldSpec.name).Nodup)
    (hpres : ∀ v x, spec.deser v = .ok x → x = v) :
    lookupKey out spec.name = lookupKey l spec.name := by
  induction specs generalizing out with
  | nil => simp at hspec
  | cons s rest ih =>
      simp only [List.map_cons, List.nodup_cons] at huniq
      obtain ⟨hnmem, hnd⟩ := huniq
      unfold loadFields at h
      split at h
      · rename_i v hv
        split at h
        · rename_i x hx
          split at h
          · rename_i out1 hrec
            injection h with h'
            subst h'
            rcases List.mem_cons.mp hspec with hsp | hsp
            · subst hsp
              have hx' : x = v := hpres v x hx
              subst hx'
              simp [lookupKey, hv]
            · have hne : s.name ≠ spec.name := by
                intro hcontra
                exact hnmem (hcontra ▸ List.mem_map_of_mem FieldSpec.name hsp)
              have hstep : lookupKey ((s.name, x) :: out1) spec.name
                  = lookupKey out1 spec.name := by
                simp [lookupKey, hne]
              rw [hstep]
              exact ih out1 hrec hsp hnd
          · exact Except.noConfusion h
        · exact Except.noConfusion h
      · rename_i hv
        split at h
        · exact Except.noConfusion h
        · rcases List.mem_cons.mp hspec with hsp | hsp
          · subst hsp
            rw [hv]
            apply lookupKey_eq_none
            intro hmem
            obtain ⟨kv, hkv, hfst⟩ := List.mem_map.mp hmem
            have hin := loadFields_keys rest l out h kv hkv
            rw [hfst] at hin
            exact hnmem hin
          · exact ih out h hsp hnd

theorem loadFields_present_deser (specs : List FieldSpec)
    (l out : List (String × JVal)) (spec : FieldSpec) (v : JVal)
    (h : loadFields specs l = .ok out)
    (hspec : spec ∈ specs)
    (huniq : (specs.map FieldSpec.name).Nodup)
    (hv : lookupKey l spec.name = some v) :
    ∃ x, spec.deser v = .ok x ∧ lookupKey out spec.name = some x := by
  induction specs generalizing out with
  | nil => simp at hspec
  | cons s rest ih =>
      simp only [List.map_cons, List.nodup_cons] at huniq
      obtain ⟨hnmem, hnd⟩ := huniq
      unfold loadFields at h
      split at h
      · rename_i v' hv'
        split at h
        · rename_i x' hx'
          split at h
          · rename_i out1 hrec
            injection h with h'
            subst h'
            rcases List.mem_cons.mp hspec with hsp | hsp
            · subst hsp
              rw [hv] at hv'
              injection hv' with hv2
              subst hv2
              refine ⟨x', hx', ?_⟩
              simp [lookupKey]
            · have hne : s.name ≠ spec.name := by
                intro hcontra
                exact hnmem (hcontra ▸ List.mem_map_of_mem FieldSpec.name hsp)
              have hstep : lookupKey ((s.name, x') :: out1) spec.name
                  = lookupKey out1 spec.name := by
                simp [lookupKey, hne]
              rw [hstep]
              exact ih out1 hrec hsp hnd
          · exact Except.noConfusion h
        · exact Except.noConfusion h
      · rename_i hnone
        split at h
        · exact Except.noConfusion h
        · rcases List.mem_cons.mp hspec with hsp | hsp
          · subst hsp
            rw [hnone] at hv
            exact Option.noConfusion hv
          · exact ih out h hsp hnd

theorem jget_eq_of_lookup (outl ll : List (String × JVal)) (k : String)
    (h : lookupKey outl k = lookupKey ll k) :
    jget (.obj outl) k = jget (.obj ll) k := by
  simp only [jget]
  rw [h]

theorem hotelResponse_fields (x y : JVal) (h : HotelResponseSchema x = .ok y)
    (k : String)
    (hk : k ∈ (["hotelUid", "name", "country", "city", "address", "stars",
                "price"] : List String)) :
    jget y k = jget x k := by
  cases x with
  | obj l =>
      simp only [HotelResponseSchema, schemaLoadWith] at h
      split at h
      · rename_i out hout
        injection h with h'
        rw [← h']
        simp only [id_eq]
        have huniq : (hotelResponseFields.map FieldSpec.name).Nodup := by decide
        simp only [List.mem_cons, List.not_mem_nil, or_false] at hk
        rcases hk with rfl | rfl | rfl | rfl | rfl | rfl | rfl
        · exact jget_eq_of_lookup out l _
            (loadFields_lookup hotelResponseFields l out
              ⟨"hotelUid", true, wrapPlain fieldUUID⟩ hout
              (by simp [hotelResponseFields]) huniq
              (wrapPlain_id fieldUUID fieldUUID_id))
        · exact jget_eq_of_lookup out l _
            (loadFields_lookup hotelResponseFields l out
              ⟨"name", true, wrapPlain fieldStr⟩ hout
              (by simp [hotelResponseFields]) huniq
              (wrapPlain_id fieldStr fieldStr_id))
        · exact jget_eq_of_lookup out l _
            (loadFields_lookup hotelResponseFields l out
              ⟨"country", true, wrapPlain fieldStr⟩ hout
              (by simp [hotelResponseFields]) huniq
              (wrapPlain_id fieldStr fieldStr_id))
        · exact jget_eq_of_lookup out l _
            (loadFields_lookup hotelResponseFields l out
              ⟨"city", true, wrapPlain fieldStr⟩ hout
              (by simp [hotelResponseFields]) huniq
              (wrapPlain_id fieldStr fieldStr_id))
        · exact jget_eq_of_lookup out l _
            (loadFields_lookup hotelResponseFields l out
              ⟨"address", true, wrapPlain fieldStr⟩ hout
              (by simp [hotelResponseFields]) huniq
              (wrapPlain_id fieldStr fieldStr_id))
        · exact jget_eq_of_lookup out l _
            (loadFields_lookup hotelResponseFields l out
              ⟨"stars", true, wrapPlain (fieldIntRange 1 5)⟩ hout
              (by simp [hotelResponseFields]) huniq
              (wrapPlain_id (fieldIntRange 1 5) (fieldIntRange_id 1 5)))
        · exact jget_eq_of_lookup out l _
            (loadFields_lookup hotelResponseFields l out
              ⟨"price", true, wrapPlain fieldFloat⟩ hout
              (by simp [hotelResponseFields]) huniq
              (wrapPlain_id fieldFloat fieldFloat_id))
      · exact Except.noConfusion h
  | null => simp [HotelResponseSchema, schemaLoadWith] at h
  | bool b => simp [HotelResponseSchema, schemaLoadWith] at h
  | num q => simp [HotelResponseSchema, schemaLoadWith] at h
  | str s => simp [HotelResponseSchema, schemaLoadWith] at h
  | arr xs => simp [HotelResponseSchema, schemaLoadWith] at h

theorem hotelPagination_fields (body out : JVal)
    (h : HotelPaginationSchema body = .ok out) :
    jget out "page" = jget body "page"
    ∧ jget out "pageSize" = jget body "pageSize"
    ∧ jget out "totalElements" = jget body "totalElements"
    ∧ (∀ xs, jget body "items" = .ok (.arr xs) →
        ∃ ys, jget out "items" = .ok (.arr ys)
          ∧ loadMany HotelResponseSchema xs = .ok ys) := by
  cases body with
  | obj l =>
      simp only [HotelPaginationSchema, schemaLoadWith] at h
      split at h
      · rename_i out0 hout
        injection h with h'
        rw [← h']
        simp only [id_eq]
        have huniq : (hotelPaginationFields.map FieldSpec.name).Nodup := by
          decide
        refine ⟨?_, ?_, ?_, ?_⟩
        · exact jget_eq_of_lookup out0 l _
            (loadFields_lookup hotelPaginationFields l out0
              ⟨"page", true, wrapPlain fieldInt⟩ hout
              (by simp [hotelPaginationFields]) huniq
              (wrapPlain_id fieldInt fieldInt_id))
        · exact jget_eq_of_lookup out0 l _
            (loadFields_lookup hotelPaginationFields l out0
              ⟨"pageSize", true, wrapPlain fieldInt⟩ hout
              (by simp [hotelPaginationFields]) huniq
              (wrapPlain_id fieldInt fieldInt_id))
        · exact jget_eq_of_lookup out0 l _
            (loadFields_lookup hotelPaginationFields l out0
              ⟨"totalElements", true, wrapPlain fieldInt⟩ hout
              (by simp [hotelPaginationFields]) huniq
              (wrapPlain_id fieldInt fieldInt_id))
        · intro xs hxs
          have hlk : lookupKey l "items" = some (.arr xs) :=
            jget_obj_ok l "items" _ hxs
          obtain ⟨x4, hd, hlo⟩ := loadFields_present_deser
            hotelPaginationFields l out0
            ⟨"items", true, fieldListNested HotelResponseSchema⟩ (.arr xs)
            hout (by simp [hotelPaginationFields]) huniq hlk
          have hd' : fieldListNested HotelResponseSchema (.arr xs) = .ok x4 := hd
          obtain ⟨xs', ys, hxs', hx4, hmany⟩ :=
            fieldListNested_ok HotelResponseSchema _ _ hd'
          injection hxs' with hxs2
          subst hxs2
          subst hx4
          refine ⟨ys, ?_, hmany⟩
          simp [jget, hlo]
      · exact Except.noConfusion h
  | null => simp [HotelPaginationSchema, schemaLoadWith] at h
  | bool b => simp [HotelPaginationSchema, schemaLoadWith] at h
  | num q => simp [HotelPaginationSchema, schemaLoadWith] at h
  | str s => simp [HotelPaginationSchema, schemaLoadWith] at h
  | arr xs => simp [HotelPaginationSchema, schemaLoadWith] at h

/-- Claim C8: a list-hotels request issues a single call to the reservation
service's hotel listing endpoint, with the page/size parameters passed
through unchanged, and returns the backend's paginated envelope: the
loaded `page`, `pageSize`, `totalElements` fields carry exactly the values
the backend returned, and every item preserves the values of all seven
hotel fields (unknown extra fields are dropped by `unknown = EXCLUDE`). -/
theorem C8_hotels_passthrough :
    ∀ (page size : ℤ) (body out : JVal),
      HotelPaginationSchema body = .ok out →
      get_hotels_route page size (.status 200 (some body))
          = (.ok (200, out), [.getHotels page size])
      ∧ jget out "page" = jget body "page"
      ∧ jget out "pageSize" = jget body "pageSize"
      ∧ jget out "totalElements" = jget body "totalElements"
      ∧ (∀ xs, jget body "items" = .ok (.arr xs) →
          ∃ ys, jget out "items" = .ok (.arr ys)
            ∧ ys.length = xs.length
            ∧ ∀ i (hy : i < ys.length) (hx : i < xs.length) (k : String),
                k ∈ (["hotelUid", "name", "country", "city", "address",
                      "stars", "price"] : List String) →
                jget (ys.get ⟨i, hy⟩) k = jget (xs.get ⟨i, hx⟩) k) := by
  intro page size body out h
  obtain ⟨h1, h2, h3, h4⟩ := hotelPagination_fields body out h
  refine ⟨?_, h1, h2, h3, ?_⟩
  · unfold get_hotels_route get_hotels
    simp [make_request, h, handle_service_error, jsonify]
  · intro xs hxs
    obtain ⟨ys, hys, hmany⟩ := h4 xs hxs
    obtain ⟨hlen, hidx⟩ := loadMany_spec HotelResponseSchema xs ys hmany
    refine ⟨ys, hys, hlen, ?_⟩
    intro i hy hx k hk
    exact hotelResponse_fields _ _ (hidx i hy hx) k hk

/-- A concrete well-formed hotel pagination envelope (already in schema
field order, so its load is the identity). -/
def c8Envelope : JVal :=
  .obj [("page", .num 1), ("pageSize", .num 10), ("totalElements", .num 1),
        ("items", .arr
          [.obj [("hotelUid", .str "aaaaaaaa-bbbb-cccc-dddd-eeeeeeeeeeee"),
                 ("name", .str "Hotel"),
                 ("country", .str "RU"),
                 ("city", .str "Moscow"),
                 ("address", .str "Main 1"),
                 ("stars", .num 5),
                 ("price", .num 100)]])]

/-- Witness for C8 at a concrete request. -/
theorem C8_hotels_passthrough_witness :
    get_hotels_route 1 10 (.status 200 (some c8Envelope))
      = (.ok (200, c8Envelope), [.getHotels 1 10]) :=
  (C8_hotels_passthrough 1 10 c8Envelope c8Envelope rfl).1

/-! ### Create-reservation pricing (C3) -/

/-- Field list of the reservation-service response used by the C3/C7
witnesses. -/
def c3ResvFields : List (String × JVal) :=
  [("reservationUid", .str "11111111-2222-3333-4444-555555555555"),
   ("hotelUid", .str "aaaaaaaa-bbbb-cccc-dddd-eeeeeeeeeeee"),
   ("startDate", .str "2024-01-01"),
   ("endDate", .str "2024-01-04"),
   ("price", .num 100)]

/-- The reservation-service response used by the C3/C7 witnesses. -/
def c3Resv : JVal := .obj c3ResvFields

/-- The loyalty record used by the C3/C7 witnesses: a 10% discount. -/
def c3Loyalty : JVal :=
  .obj [("status", .str "GOLD"), ("discount", .num 10),
        ("reservationCount", .num 5)]

/-- The payment-service response used by the C3/C7 witnesses. -/
def c3PayResp : JVal :=
  .obj [("paymentUid", .str "99999999-8888-7777-6666-555555555555"),
        ("status", .str "PAID"), ("price", .num 270)]

/-- The request body used by the C3/C7 witnesses. -/
def c3Req : JVal := .obj [("hotelUid", .str "aaaaaaaa-bbbb-cccc-dddd-eeeeeeeeeeee")]

/-- Claim C3: for a created reservation with start date `sd`, end date
`ed`, nightly price `p` and loyalty discount `d`, the payment posted to the
payment service carries exactly the amount
`p * (whole days from sd to ed) * (1 - d / 100)` and initial status PAID;
in particular for 2024-01-01 → 2024-01-04 at nightly price 100 with a 10%
discount the posted amount is 270. -/
theorem C3_payment_amount :
    (∀ (rd : Option JVal) (uPaymentPost : JVal → Upstream)
       (uLoyaltyPost : Upstream)
       (rl : List (String × JVal)) (ss es : String) (sd ed : DateT)
       (p d : ℚ) (lv ruid : JVal),
      lookupKey rl "startDate" = some (.str ss) →
      dateParse ss = some sd →
      lookupKey rl "endDate" = some (.str es) →
      dateParse es = some ed →
      lookupKey rl "price" = some (.num p) →
      lookupKey rl "reservationUid" = some ruid →
      jget lv "discount" = .ok (.num d) →
      Call.postPayment (.obj
          [("price", .num (p * (dateDiffDays sd ed : ℚ) * (1 - d / 100))),
           ("reservationUid", ruid),
           ("status", .str "PAID")])
        ∈ (create_reservation rd (.status 200 (some (.obj rl)))
            (.status 200 (some lv)) uPaymentPost uLoyaltyPost).2)
    ∧ Call.postPayment (.obj
        [("price", .num 270),
         ("reservationUid", .str "11111111-2222-3333-4444-555555555555"),
         ("status", .str "PAID")])
      ∈ (create_reservation (some c3Req) (.status 200 (some c3Resv))
          (.status 200 (some c3Loyalty))
          (fun _ => .status 200 (some c3PayResp)) (.status 200 none)).2 := by
  have hA : ∀ (rd : Option JVal) (uPaymentPost : JVal → Upstream)
      (uLoyaltyPost : Upstream)
      (rl : List (String × JVal)) (ss es : String) (sd ed : DateT)
      (p d : ℚ) (lv ruid : JVal),
      lookupKey rl "startDate" = some (.str ss) →
      dateParse ss = some sd →
      lookupKey rl "endDate" = some (.str es) →
      dateParse es = some ed →
      lookupKey rl "price" = some (.num p) →
      lookupKey rl "reservationUid" = some ruid →
      jget lv "discount" = .ok (.num d) →
      Call.postPayment (.obj
          [("price", .num (p * (dateDiffDays sd ed : ℚ) * (1 - d / 100))),
           ("reservationUid", ruid),
           ("status", .str "PAID")])
        ∈ (create_reservation rd (.status 200 (some (.obj rl)))
            (.status 200 (some lv)) uPaymentPost uLoyaltyPost).2 := by
    intro rd uPaymentPost uLoyaltyPost rl ss es sd ed p d lv ruid
      hss hsd hes hed hp hruid hdisc
    have h0 : rl.isEmpty = false := by
      cases rl with
      | nil => simp [lookupKey] at hss
      | cons a t => rfl
    have e1 : make_request (.status 200 (some (.obj rl))) none
        = .ok (some (.obj rl)) := rfl
    have e3 : jget (.obj (setKey rl "status" (.str "RESERVED"))) "startDate"
        = .ok (.str ss) := by
      simp [jget, lookup_setKey_other rl "status" "startDate" _ (by decide),
        hss]
    have e4 : pyFromIso (.str ss) = .ok sd := by simp [pyFromIso, hsd]
    have e5 : jget (.obj (setKey rl "status" (.str "RESERVED"))) "endDate"
        = .ok (.str es) := by
      simp [jget, lookup_setKey_other rl "status" "endDate" _ (by decide), hes]
    have e6 : pyFromIso (.str es) = .ok ed := by simp [pyFromIso, hed]
    have e7 : jget (.obj (setKey rl "status" (.str "RESERVED"))) "price"
        = .ok (.num p) := by
      simp [jget, lookup_setKey_other rl "status" "price" _ (by decide), hp]
    have e8 : make_request (.status 200 (some lv)) none = .ok (some lv) := rfl
    have e11 : jget (.obj (setKey (setKey rl "status" (.str "RESERVED"))
        "discount" (.num d))) "reservationUid" = .ok ruid := by
      simp [jget,
        lookup_setKey_other _ "discount" "reservationUid" _ (by decide),
        lookup_setKey_other rl "status" "reservationUid" _ (by decide), hruid]
    unfold create_reservation
    simp only [e1, truthyOpt, jtruthy, h0, Bool.not_false, Bool.not_true,
      Bool.false_eq_true, if_false, jset, e3, e4, e5, e6, e7, e8, hdisc,
      pyNum, e11]
    split
    · simp
    · repeat' split
      all_goals simp
  refine ⟨hA, ?_⟩
  have hq : (100 : ℚ) * ((dateDiffDays ⟨2024, 1, 1⟩ ⟨2024, 1, 4⟩ : ℤ) : ℚ)
      * (1 - 10 / 100) = 270 := by
    have hdd : dateDiffDays ⟨2024, 1, 1⟩ ⟨2024, 1, 4⟩ = 3 := rfl
    rw [hdd]
    norm_num
  rw [← hq]
  exact hA (some c3Req) (fun _ => .status 200 (some c3PayResp))
    (.status 200 none) c3ResvFields "2024-01-01" "2024-01-04"
    ⟨2024, 1, 1⟩ ⟨2024, 1, 4⟩ 100 10 c3Loyalty
    (.str "11111111-2222-3333-4444-555555555555")
    rfl rfl rfl rfl rfl rfl rfl

/-- Witness for C3 at a concrete creation. -/
theorem C3_payment_amount_witness :
    Call.postPayment (.obj
        [("price", .num (100 * (dateDiffDays ⟨2024, 1, 1⟩ ⟨2024, 1, 4⟩ : ℚ)
            * (1 - 10 / 100))),
         ("reservationUid", .str "11111111-2222-3333-4444-555555555555"),
         ("status", .str "PAID")])
      ∈ (create_reservation (some c3Req) (.status 200 (some c3Resv))
          (.status 200 (some c3Loyalty))
          (fun _ => .status 200 (some c3PayResp)) (.status 200 none)).2 :=
  C3_payment_amount.1 (some c3Req) (fun _ => .status 200 (some c3PayResp))
    (.status 200 none) c3ResvFields "2024-01-01" "2024-01-04"
    ⟨2024, 1, 1⟩ ⟨2024, 1, 4⟩ 100 10 c3Loyalty
    (.str "11111111-2222-3333-4444-555555555555")
    rfl rfl rfl rfl rfl rfl rfl

/-! ### Create-reservation workflow ordering and output shape (C7) -/

theorem create_abort_on_failure (rd : Option JVal) (uC uLG : Upstream)
    (uPP : JVal → Upstream) (uLP : Upstream)
    (h : (∃ e, make_request uC none = .error e)
        ∨ make_request uC none = .ok none) :
    (create_reservation rd uC uLG uPP uLP).2 = [.postReservation rd] := by
  rcases h with ⟨e, he⟩ | he
  · unfold create_reservation
    rw [he]
  · unfold create_reservation
    rw [he]
    rfl

theorem create_loyalty_gated (rd : Option JVal) (uC uLG : Upstream)
    (uPP : JVal → Upstream) (uLP : Upstream)
    (hmem : Call.postLoyalty ∈ (create_reservation rd uC uLG uPP uLP).2) :
    ∃ pj pv, Call.postPayment pj ∈ (create_reservation rd uC uLG uPP uLP).2
      ∧ make_request (uPP pj) none = .ok (some pv) ∧ jtruthy pv = true := by
  rcases hEq : create_reservation rd uC uLG uPP uLP with ⟨res, tr⟩
  rw [hEq] at hmem
  simp only at hmem ⊢
  unfold create_reservation at hEq
  dsimp only at hEq
  repeat' split at hEq
  all_goals (
    have htr := congrArg Prod.snd hEq
    simp only at htr
    subst htr)
  all_goals try (refine absurd hmem ?_; simp; done)
  all_goals
    exact ⟨_, _,
      List.mem_cons_of_mem _ (List.mem_cons_of_mem _ (List.mem_cons_self _ _)),
      by assumption, by simp_all [truthyOpt]⟩

theorem create_price_stripped (rd : Option JVal) (uC uLG : Upstream)
    (uPP : JVal → Upstream) (uLP : Upstream) (out : JVal)
    (h : (create_reservation rd uC uLG uPP uLP).1 = .ok (some out)) :
    jget out "price" = .error (.keyError "price") := by
  rcases hEq : create_reservation rd uC uLG uPP uLP with ⟨res, tr⟩
  rw [hEq] at h
  simp only at h
  subst h
  unfold create_reservation at hEq
  dsimp only at hEq
  repeat' split at hEq
  all_goals try (refine absurd (congrArg Prod.fst hEq) ?_; simp; done)
  all_goals (
    rename_i x0 r5 hdel
    have hout : r5 = out := by
      have h1 := congrArg Prod.fst hEq
      simpa using h1
    subst hout
    obtain ⟨ll, hq, hdd⟩ := jdel_ok _ _ _ hdel
    subst hdd
    simp [jget, lookup_delKey_self])

theorem create_payment_attached (rd : Option JVal)
    (uPP : JVal → Upstream) (uLP : Upstream)
    (rl : List (String × JVal)) (ss es : String) (sd ed : DateT)
    (p d : ℚ) (lv ruid payv st : JVal) (lres : Option JVal)
    (hss : lookupKey rl "startDate" = some (.str ss))
    (hsd : dateParse ss = some sd)
    (hes : lookupKey rl "endDate" = some (.str es))
    (hed : dateParse es = some ed)
    (hp : lookupKey rl "price" = some (.num p))
    (hruid : lookupKey rl "reservationUid" = some ruid)
    (hdisc : jget lv "discount" = .ok (.num d))
    (hpay : make_request (uPP (.obj
        [("price", .num (p * (dateDiffDays sd ed : ℚ) * (1 - d / 100))),
         ("reservationUid", ruid), ("status", .str "PAID")])) none
      = .ok (some payv))
    (htv : jtruthy payv = true)
    (hst : jget payv "status" = .ok st)
    (hlp : make_request uLP none = .ok lres) :
    ∃ out,
      (create_reservation rd (.status 200 (some (.obj rl)))
        (.status 200 (some lv)) uPP uLP).1 = .ok (some out)
      ∧ jget out "payment" = .ok payv
      ∧ jget out "status" = .ok st
      ∧ jget out "status" = jget payv "status" := by
  have h0 : rl.isEmpty = false := by
    cases rl with
    | nil => simp [lookupKey] at hss
    | cons a t => rfl
  have e1 : make_request (.status 200 (some (.obj rl))) none
      = .ok (some (.obj rl)) := rfl
  have e3 : jget (.obj (setKey rl "status" (.str "RESERVED"))) "startDate"
      = .ok (.str ss) := by
    simp [jget, lookup_setKey_other rl "status" "startDate" _ (by decide), hss]
  have e4 : pyFromIso (.str ss) = .ok sd := by simp [pyFromIso, hsd]
  have e5 : jget (.obj (setKey rl "status" (.str "RESERVED"))) "endDate"
      = .ok (.str es) := by
    simp [jget, lookup_setKey_other rl "status" "endDate" _ (by decide), hes]
  have e6 : pyFromIso (.str es) = .ok ed := by simp [pyFromIso, hed]
  have e7 : jget (.obj (setKey rl "status" (.str "RESERVED"))) "price"
      = .ok (.num p) := by
    simp [jget, lookup_setKey_other rl "status" "price" _ (by decide), hp]
  have e8 : make_request (.status 200 (some lv)) none = .ok (some lv) := rfl
  have e11 : jget (.obj (setKey (setKey rl "status" (.str "RESERVED"))
      "discount" (.num d))) "reservationUid" = .ok ruid := by
    simp [jget,
      lookup_setKey_other _ "discount" "reservationUid" _ (by decide),
      lookup_setKey_other rl "status" "reservationUid" _ (by decide), hruid]
  have etr : truthyOpt (some payv) = true := by simp [truthyOpt, htv]
  have etr0 : truthyOpt (some (.obj rl)) = true := by
    simp [truthyOpt, jtruthy, h0]
  have hkp : lookupKey (setKey (setKey (setKey (setKey rl "status"
      (.str "RESERVED")) "discount" (.num d)) "payment" payv) "status" st)
      "price" = some (.num p) := by
    rw [lookup_setKey_other _ _ _ _ (by decide),
        lookup_setKey_other _ _ _ _ (by decide),
        lookup_setKey_other _ _ _ _ (by decide),
        lookup_setKey_other _ _ _ _ (by decide)]
    exact hp
  have edel : jdel (.obj (setKey (setKey (setKey (setKey rl "status"
      (.str "RESERVED")) "discount" (.num d)) "payment" payv) "status" st))
      "price"
      = .ok (.obj (delKey (setKey (setKey (setKey (setKey rl "status"
          (.str "RESERVED")) "discount" (.num d)) "payment" payv)
          "status" st) "price")) := by
    simp [jdel, hasKey, hkp]
  have hpm : lookupKey (delKey (setKey (setKey (setKey (setKey rl "status"
      (.str "RESERVED")) "discount" (.num d)) "payment" payv) "status" st)
      "price") "payment" = some payv := by
    rw [lookup_delKey_other _ _ _ (by decide),
        lookup_setKey_other _ _ _ _ (by decide)]
    exact lookup_setKey_self _ _ _
  have hsm : lookupKey (delKey (setKey (setKey (setKey (setKey rl "status"
      (.str "RESERVED")) "discount" (.num d)) "payment" payv) "status" st)
      "price") "status" = some st := by
    rw [lookup_delKey_other _ _ _ (by decide)]
    exact lookup_setKey_self _ _ _
  refine ⟨.obj (delKey (setKey (setKey (setKey (setKey rl "status"
      (.str "RESERVED")) "discount" (.num d)) "payment" payv) "status" st)
      "price"), ?_, ?_, ?_, ?_⟩
  · unfold create_reservation
    simp only [e1, etr0, Bool.not_true, Bool.false_eq_true, if_false, jset,
      e3, e4, e5, e6, e7, e8, hdisc, pyNum, e11, hpay, etr,
      eq_self_iff_true, if_true, hst, hlp, edel]
  · simp [jget, hpm]
  · simp [jget, hsm]
  · rw [hst]
    simp [jget, hsm]

theorem create_not_paid_on_failure (rd : Option JVal)
    (uPP : JVal → Upstream) (uLP : Upstream)
    (rl : List (String × JVal)) (ss es : String) (sd ed : DateT)
    (p d : ℚ) (lv ruid : JVal) (pay : Option JVal)
    (hss : lookupKey rl "startDate" = some (.str ss))
    (hsd : dateParse ss = some sd)
    (hes : lookupKey rl "endDate" = some (.str es))
    (hed : dateParse es = some ed)
    (hp : lookupKey rl "price" = some (.num p))
    (hruid : lookupKey rl "reservationUid" = some ruid)
    (hdisc : jget lv "discount" = .ok (.num d))
    (hpay : make_request (uPP (.obj
        [("price", .num (p * (dateDiffDays sd ed : ℚ) * (1 - d / 100))),
         ("reservationUid", ruid), ("status", .str "PAID")])) none
      = .ok pay)
    (htv : truthyOpt pay = false) :
    ∃ out,
      (create_reservation rd (.status 200 (some (.obj rl)))
        (.status 200 (some lv)) uPP uLP).1 = .ok (some out)
      ∧ jget out "status" = .ok (.str "RESERVED")
      ∧ jget out "status" ≠ .ok (.str "PAID") := by
  have h0 : rl.isEmpty = false := by
    cases rl with
    | nil => simp [lookupKey] at hss
    | cons a t => rfl
  have e1 : make_request (.status 200 (some (.obj rl))) none
      = .ok (some (.obj rl)) := rfl
  have e3 : jget (.obj (setKey rl "status" (.str "RESERVED"))) "startDate"
      = .ok (.str ss) := by
    simp [jget, lookup_setKey_other rl "status" "startDate" _ (by decide), hss]
  have e4 : pyFromIso (.str ss) = .ok sd := by simp [pyFromIso, hsd]
  have e5 : jget (.obj (setKey rl "status" (.str "RESERVED"))) "endDate"
      = .ok (.str es) := by
    simp [jget, lookup_setKey_other rl "status" "endDate" _ (by decide), hes]
  have e6 : pyFromIso (.str es) = .ok ed := by simp [pyFromIso, hed]
  have e7 : jget (.obj (setKey rl "status" (.str "RESERVED"))) "price"
      = .ok (.num p) := by
    simp [jget, lookup_setKey_other rl "status" "price" _ (by decide), hp]
  have e8 : make_request (.status 200 (some lv)) none = .ok (some lv) := rfl
  have e11 : jget (.obj (setKey (setKey rl "status" (.str "RESERVED"))
      "discount" (.num d))) "reservationUid" = .ok ruid := by
    simp [jget,
      lookup_setKey_other _ "discount" "reservationUid" _ (by decide),
      lookup_setKey_other rl "status" "reservationUid" _ (by decide), hruid]
  have etr0 : truthyOpt (some (.obj rl)) = true := by
    simp [truthyOpt, jtruthy, h0]
  have hkp : lookupKey (setKey (setKey rl "status" (.str "RESERVED"))
      "discount" (.num d)) "price" = some (.num p) := by
    rw [lookup_setKey_other _ _ _ _ (by decide),
        lookup_setKey_other _ _ _ _ (by decide)]
    exact hp
  have edel : jdel (.obj (setKey (setKey rl "status" (.str "RESERVED"))
      "discount" (.num d))) "price"
      = .ok (.obj (delKey (setKey (setKey rl "status" (.str "RESERVED"))
          "discount" (.num d)) "price")) := by
    simp [jdel, hasKey, hkp]
  have hsm : lookupKey (delKey (setKey (setKey rl "status" (.str "RESERVED"))
      "discount" (.num d)) "price") "status" = some (.str "RESERVED") := by
    rw [lookup_delKey_other _ _ _ (by decide),
        lookup_setKey_other _ _ _ _ (by decide)]
    exact lookup_setKey_self _ _ _
  refine ⟨.obj (delKey (setKey (setKey rl "status" (.str "RESERVED"))
      "discount" (.num d)) "price"), ?_, ?_, ?_⟩
  · unfold create_reservation
    simp only [e1, etr0, Bool.not_true, Bool.false_eq_true, if_false, jset,
      e3, e4, e5, e6, e7, e8, hdisc, pyNum, e11, hpay, htv, edel]
  · simp [jget, hsm]
  · simp [jget, hsm]

/-- Claim C7: the create-reservation workflow — (i) if the initial
reservation-creation call fails (exception) or returns a falsy body, no
further backend call is issued; (ii) the loyalty-update POST is issued only
when the payment-creation call returned a truthy payment; (iii) when
payment creation succeeds, the returned reservation embeds that payment
and takes the payment's status; (iv) a returned reservation never contains
the internal nightly price field; (v) when the payment response is falsy,
the returned reservation has status RESERVED — never PAID. -/
theorem C7_create_workflow :
    (∀ (rd : Option JVal) (uC uLG : Upstream) (uPP : JVal → Upstream)
       (uLP : Upstream),
      ((∃ e, make_request uC none = .error e)
          ∨ make_request uC none = .ok none) →
      (create_reservation rd uC uLG uPP uLP).2 = [.postReservation rd])
    ∧ (∀ (rd : Option JVal) (uC uLG : Upstream) (uPP : JVal → Upstream)
         (uLP : Upstream),
        Call.postLoyalty ∈ (create_reservation rd uC uLG uPP uLP).2 →
        ∃ pj pv,
          Call.postPayment pj ∈ (create_reservation rd uC uLG uPP uLP).2
          ∧ make_request (uPP pj) none = .ok (some pv)
          ∧ jtruthy pv = true)
    ∧ (∀ (rd : Option JVal) (uPP : JVal → Upstream) (uLP : Upstream)
         (rl : List (String × JVal)) (ss es : String) (sd ed : DateT)
         (p d : ℚ) (lv ruid payv st : JVal) (lres : Option JVal),
        lookupKey rl "startDate" = some (.str ss) →
        dateParse ss = some sd →
        lookupKey rl "endDate" = some (.str es) →
        dateParse es = some ed →
        lookupKey rl "price" = some (.num p) →
        lookupKey rl "reservationUid" = some ruid →
        jget lv "discount" = .ok (.num d) →
        make_request (uPP (.obj
            [("price", .num (p * (dateDiffDays sd ed : ℚ) * (1 - d / 100))),
             ("reservationUid", ruid), ("status", .str "PAID")])) none
          = .ok (some payv) →
        jtruthy payv = true →
        jget payv "status" = .ok st →
        make_request uLP none = .ok lres →
        ∃ out,
          (create_reservation rd (.status 200 (some (.obj rl)))
            (.status 200 (some lv)) uPP uLP).1 = .ok (some out)
          ∧ jget out "payment" = .ok payv
          ∧ jget out "status" = .ok st
          ∧ jget out "status" = jget payv "status")
    ∧ (∀ (rd : Option JVal) (uC uLG : Upstream) (uPP : JVal → Upstream)
         (uLP : Upstream) (out : JVal),
        (create_reservation rd uC uLG uPP uLP).1 = .ok (some out) →
        jget out "price" = .error (.keyError "price"))
    ∧ (∀ (rd : Option JVal) (uPP : JVal → Upstream) (uLP : Upstream)
         (rl : List (String × JVal)) (ss es : String) (sd ed : DateT)
         (p d : ℚ) (lv ruid : JVal) (pay : Option JVal),
        lookupKey rl "startDate" = some (.str ss) →
        dateParse ss = some sd →
        lookupKey rl "endDate" = some (.str es) →
        dateParse es = some ed →
        lookupKey rl "price" = some (.num p) →
        lookupKey rl "reservationUid" = some ruid →
        jget lv "discount" = .ok (.num d) →
        make_request (uPP (.obj
            [("price", .num (p * (dateDiffDays sd ed : ℚ) * (1 - d / 100))),
             ("reservationUid", ruid), ("status", .str "PAID")])) none
          = .ok pay →
        truthyOpt pay = false →
        ∃ out,
          (create_reservation rd (.status 200 (some (.obj rl)))
            (.status 200 (some lv)) uPP uLP).1 = .ok (some out)
          ∧ jget out "status" = .ok (.str "RESERVED")
          ∧ jget out "status" ≠ .ok (.str "PAID")) :=
  ⟨create_abort_on_failure, create_loyalty_gated, create_payment_attached,
   create_price_stripped, create_not_paid_on_failure⟩

/-- Witness for C7 at a concrete successful creation. -/
theorem C7_create_workflow_witness :
    ∃ out,
      (create_reservation (some c3Req) (.status 200 (some c3Resv))
        (.status 200 (some c3Loyalty))
        (fun _ => .status 200 (some c3PayResp)) (.status 200 none)).1
        = .ok (some out)
      ∧ jget out "payment" = .ok c3PayResp
      ∧ jget out "status" = .ok (.str "PAID")
      ∧ jget out "status" = jget c3PayResp "status" :=
  C7_create_workflow.2.2.1 (some c3Req)
    (fun _ => .status 200 (some c3PayResp)) (.status 200 none)
    c3ResvFields "2024-01-01" "2024-01-04" ⟨2024, 1, 1⟩ ⟨2024, 1, 4⟩
    100 10 c3Loyalty (.str "11111111-2222-3333-4444-555555555555")
    c3PayResp (.str "PAID") none
    rfl rfl rfl rfl rfl rfl rfl rfl rfl rfl rfl
